import Mathlib

/-
  Verification of the hexacore dual-store CRUD/auth core.

  The TypeScript sources are embedded shallowly:
  - JS strings are Lean `String`s, JS `Date` values are `Nat` milliseconds,
    JS numbers used as ages are `Int`.
  - Async/await sequences become explicit state passing over a record of
    both store contents; `Promise.all` pairs apply both effects and fail
    when either side fails (both operations are started eagerly in JS).
  - Fallible operations return `Except AppErr`.
  - bcrypt and sha256 are idealised as injective constructors; JWT signing
    is idealised as a transparent record carrying secret, payload and
    expiry (perfect, deterministic symmetric crypto).
-/

namespace Hexacore

/-- Milliseconds since epoch, the embedding of a JS `Date`. -/
abbrev Millis := Nat

/-- Error values raised by the core, from `shared/errors`:
`plain` is an untyped `new Error(msg)`, the others are the typed
`AppError` subclasses (ValidationError, ConflictError, UnauthorizedError,
NotFoundError, DatabaseError). `database` also stands for a raw store
failure propagating uncaught. -/
inductive AppErr where
  | plain (msg : String)
  | validation (msg : String)
  | conflict (msg : String)
  | unauthorized (msg : String)
  | notFound (msg : String)
  | database (msg : String)
  deriving DecidableEq, Repr

deriving instance DecidableEq for Except

/-- The characters matched by the JS regex class `\s` (ASCII part:
space, tab, line feed, vertical tab, form feed, carriage return). -/
def isJsWhitespace (c : Char) : Bool :=
  c = ' ' || c = '\t' || c = '\n' || c = '\x0b' || c = '\x0c' || c = '\r'

/-- JS `String.prototype.trim`: strip leading and trailing whitespace. -/
def jsTrim (s : String) : String :=
  ⟨((s.toList.dropWhile isJsWhitespace).reverse.dropWhile isJsWhitespace).reverse⟩

/-- ASCII model of JS `String.prototype.toLowerCase` on one character. -/
def asciiToLowerChar (c : Char) : Char :=
  if 65 ≤ c.toNat ∧ c.toNat ≤ 90 then Char.ofNat (c.toNat + 32) else c

/-- ASCII model of JS `String.prototype.toLowerCase`. -/
def jsToLower (s : String) : String :=
  ⟨s.toList.map asciiToLowerChar⟩

/-- ASCII model of JS `String.prototype.toUpperCase` on one character. -/
def asciiToUpperChar (c : Char) : Char :=
  if 97 ≤ c.toNat ∧ c.toNat ≤ 122 then Char.ofNat (c.toNat - 32) else c

/-- ASCII model of JS `String.prototype.toUpperCase`. -/
def jsToUpper (s : String) : String :=
  ⟨s.toList.map asciiToUpperChar⟩

/-- A character admitted by the regex class `[^\s@]` of `Email.isValid`. -/
def emailChar (c : Char) : Bool :=
  !isJsWhitespace c && c ≠ '@'

/-- Does the list of characters after the first position and before the
last position contain a dot?  This is the executable test for the
`[^\s@]+\.[^\s@]+` part of the email regex, given that every character
of the domain part is an `emailChar`. -/
def innerDot (dom : List Char) : Bool :=
  ((dom.drop 1).dropLast).contains '.'

/-- Executable embedding of `Email.isValid`, the test of the source regex
`^[^\s@]+@[^\s@]+\.[^\s@]+$` against the raw (untrimmed) input: split at
the first `@`, require a nonempty all-`emailChar` local part, an
all-`emailChar` remainder, and a dot strictly inside the remainder. -/
def matchesEmailRegex (s : String) : Bool :=
  let cs := s.toList
  let loc := cs.takeWhile (fun c => c ≠ '@')
  match cs.dropWhile (fun c => c ≠ '@') with
  | '@' :: dom => !loc.isEmpty && loc.all emailChar && dom.all emailChar && innerDot dom
  | _ => false

/-- Spec-level shape (from the spec words: a simple `local@domain.tld`
shape): the string decomposes as a nonempty local part, an `@`, and a
domain that itself splits at some dot into two nonempty halves, with no
whitespace and no further `@` anywhere. -/
def EmailShape (s : String) : Prop :=
  ∃ loc a b : List Char,
    s.toList = loc ++ '@' :: (a ++ '.' :: b) ∧
    loc ≠ [] ∧ a ≠ [] ∧ b ≠ [] ∧
    loc.all emailChar ∧ a.all emailChar ∧ b.all emailChar

/-- The `Email` value object: the stored, normalised address. -/
structure Email where
  value : String
  deriving DecidableEq, Repr

namespace Email

/-- Embeds `Email.create`: validate the raw input against the regex, then store
`email.toLowerCase().trim()`.  The validation error is an untyped
`new Error` in the source. -/
def create (email : String) : Except AppErr Email :=
  if matchesEmailRegex email then .ok ⟨jsTrim (jsToLower email)⟩
  else .error (.plain "Invalid email format")

end Email


/- Value objects: Role, Password, identifier validation -/

/-- Embeds `UserRole` enumeration from `Role.ts`. -/
inductive UserRole where
  | USER
  | MODERATOR
  | ADMIN
  deriving DecidableEq, Repr

/-- Embeds `Role.create`: case-insensitive match against the enumerated roles. -/
def Role.create (value : String) : Except AppErr UserRole :=
  let upper := jsToUpper value
  if upper = "USER" then .ok .USER
  else if upper = "ADMIN" then .ok .ADMIN
  else if upper = "MODERATOR" then .ok .MODERATOR
  else .error (.plain ("Invalid role: " ++ value ++ ". Allowed roles: USER, ADMIN, MODERATOR"))

/-- Idealised bcrypt digest: hashing is modelled as an injective constructor
(collision-free, deterministic salt), so `compare` succeeds exactly on the
original plain text. -/
inductive BcryptHash where
  | bcrypt (plain : String)
  deriving DecidableEq, Repr

/-- The `Password` value object: stores only the one-way hash. -/
structure Password where
  hashedValue : BcryptHash
  deriving DecidableEq, Repr

/-- The special characters accepted by the password strength regex. -/
def passwordSpecials : List Char :=
  ['!', '@', '#', '$', '%', '^', '&', '*', '(', ')', '_', '+', '-', '=', '[', ']',
   '\x7b', '\x7d', ';', '\'', ':', '"', '\\', '|', ',', '.', '<', '>', '/', '?']

/-- Embeds `Password.create`: strength validation of the plain text, then hash. -/
def Password.create (plain : String) : Except AppErr Password :=
  if plain = "" then .error (.plain "Password cannot be empty")
  else if plain.length < 8 then .error (.plain "Password must be at least 8 characters long")
  else if plain.length > 128 then .error (.plain "Password cannot exceed 128 characters")
  else if !(plain.toList.any fun c => 65 ≤ c.toNat && c.toNat ≤ 90) then
    .error (.plain "Password must contain at least one uppercase letter")
  else if !(plain.toList.any fun c => 97 ≤ c.toNat && c.toNat ≤ 122) then
    .error (.plain "Password must contain at least one lowercase letter")
  else if !(plain.toList.any fun c => 48 ≤ c.toNat && c.toNat ≤ 57) then
    .error (.plain "Password must contain at least one number")
  else if !(plain.toList.any fun c => passwordSpecials.contains c) then
    .error (.plain "Password must contain at least one special character")
  else .ok ⟨.bcrypt plain⟩

/-- Embeds `Password.fromHash` (reconstruction from storage, no strength check;
the source only rejects the empty hash string, which the `BcryptHash`
type cannot represent). -/
def Password.fromHash (h : BcryptHash) : Password := ⟨h⟩

/-- Embeds `Password.compare` via the idealised bcrypt. -/
def Password.compare (p : Password) (plain : String) : Bool :=
  p.hashedValue == .bcrypt plain

/-- Embeds `UserId.fromString` (identical validation in RefreshTokenId and
PasswordResetTokenId): reject empty or all-whitespace strings. -/
def UserId.fromString (id : String) : Except AppErr String :=
  if jsTrim id = "" then .error (.plain "UserId cannot be empty") else .ok id

/- JwtUtil: idealised signed tokens -/

/-- The claims carried by both token kinds. -/
structure JwtPayload where
  userId : String
  email : String
  role : UserRole
  deriving DecidableEq, Repr

/-- Idealised signed JWT: the opaque token string is modelled as the
record of the signing secret, the claims and the expiry instant
(HS256 signing is deterministic, so equal inputs give equal strings). -/
structure JwtToken where
  secret : String
  payload : JwtPayload
  exp : Millis
  deriving DecidableEq, Repr

namespace JwtUtil

def ACCESS_TOKEN_SECRET : String := "access-token-secret"

def REFRESH_TOKEN_SECRET : String := "refresh-token-secret"

/-- Fifteen minutes, in milliseconds. -/
def accessTokenExpiryMs : Millis := 15 * 60 * 1000

/-- Seven days, in milliseconds. -/
def refreshTokenExpiryMs : Millis := 7 * 24 * 60 * 60 * 1000

def generateAccessToken (p : JwtPayload) (now : Millis) : JwtToken :=
  ⟨ACCESS_TOKEN_SECRET, p, now + accessTokenExpiryMs⟩

def generateRefreshToken (p : JwtPayload) (now : Millis) : JwtToken :=
  ⟨REFRESH_TOKEN_SECRET, p, now + refreshTokenExpiryMs⟩

/-- Embeds `jwt.verify` against the refresh secret: signature first, then expiry
(the underlying library treats a token as expired once `now ≥ exp`).
Both failures are distinct catchable untyped errors. -/
def verifyRefreshToken (t : JwtToken) (now : Millis) : Except AppErr JwtPayload :=
  if t.secret ≠ REFRESH_TOKEN_SECRET then .error (.plain "Invalid refresh token")
  else if now ≥ t.exp then .error (.plain "Refresh token has expired")
  else .ok t.payload

/-- Wall-clock expiry instant for a freshly issued refresh token. -/
def getRefreshTokenExpiryDate (now : Millis) : Millis := now + refreshTokenExpiryMs

end JwtUtil

/- Domain entities -/

/-- Embeds `domain/entities/User.ts` (profile variant used by the user CRUD
use cases: no credential fields). -/
structure User where
  id : String
  name : String
  email : Email
  age : Option Int
  createdAt : Millis
  updatedAt : Millis
  deriving DecidableEq, Repr

/-- JS falsiness check used by `User.create` on the age bounds. -/
def ageInvalid : Option Int → Bool
  | some a => a < 0 || a > 150
  | none => false

/-- Embeds `User.create`: name nonempty after trim, age within 0..150 when
present, email validated; `freshId` stands for the generated uuid and
`now` for `new Date()`. -/
def User.create (name email : String) (age : Option Int) (freshId : String) (now : Millis) :
    Except AppErr User :=
  if jsTrim name = "" then .error (.plain "User name cannot be empty")
  else if ageInvalid age then .error (.plain "Invalid age")
  else (Email.create email).map fun em =>
    { id := freshId, name := jsTrim name, email := em, age := age,
      createdAt := now, updatedAt := now }

def User.updateName (u : User) (name : String) (now : Millis) : Except AppErr User :=
  if jsTrim name = "" then .error (.plain "User name cannot be empty")
  else .ok { u with name := jsTrim name, updatedAt := now }

def User.updateEmail (u : User) (email : String) (now : Millis) : Except AppErr User :=
  (Email.create email).map fun em => { u with email := em, updatedAt := now }

def User.updateAge (u : User) (age : Int) (now : Millis) : Except AppErr User :=
  if age < 0 || age > 150 then .error (.plain "Invalid age")
  else .ok { u with age := some age, updatedAt := now }

/-- The authentication-capable `User` entity (the variant with password
and role used by the auth use cases and the Prisma adapter). -/
structure AuthUser where
  id : String
  name : String
  email : Email
  password : Password
  role : UserRole
  age : Option Int
  createdAt : Millis
  updatedAt : Millis
  deriving DecidableEq, Repr

def AuthUser.create (name email : String) (password : Password) (role : Option UserRole)
    (age : Option Int) (freshId : String) (now : Millis) : Except AppErr AuthUser :=
  if jsTrim name = "" then .error (.plain "User name cannot be empty")
  else if ageInvalid age then .error (.plain "Invalid age")
  else (Email.create email).map fun em =>
    { id := freshId, name := jsTrim name, email := em, password := password,
      role := role.getD .USER, age := age, createdAt := now, updatedAt := now }

def AuthUser.verifyPassword (u : AuthUser) (plain : String) : Bool :=
  u.password.compare plain

def AuthUser.updatePassword (u : AuthUser) (p : Password) (now : Millis) : AuthUser :=
  { u with password := p, updatedAt := now }

/-- Embeds `domain/entities/RefreshToken.ts`. -/
structure RefreshToken where
  id : String
  token : JwtToken
  userId : String
  expiresAt : Millis
  createdAt : Millis
  deriving DecidableEq, Repr

def RefreshToken.create (token : JwtToken) (userId : String) (expiresAt : Millis)
    (freshId : String) (now : Millis) : RefreshToken :=
  ⟨freshId, token, userId, expiresAt, now⟩

/-- Strict comparison `new Date() > this.expiresAt`. -/
def RefreshToken.isExpired (t : RefreshToken) (now : Millis) : Bool :=
  now > t.expiresAt

def RefreshToken.belongsToUser (t : RefreshToken) (userId : String) : Bool :=
  t.userId == userId

/-- Idealised sha256 digest (injective constructor, collision-free). -/
inductive Sha256Hash where
  | sha256 (preimage : String)
  deriving DecidableEq, Repr

/-- Embeds `hashPasswordResetToken`: sha256 of the raw token. -/
def hashPasswordResetToken (token : String) : Sha256Hash := .sha256 token

/-- Embeds `getPasswordResetExpiryDate` with the default 30 minutes. -/
def getPasswordResetExpiryDate (now : Millis) : Millis := now + 30 * 60 * 1000

/-- Embeds `domain/entities/PasswordResetToken.ts`. -/
structure PasswordResetToken where
  id : String
  tokenHash : Sha256Hash
  userId : String
  expiresAt : Millis
  createdAt : Millis
  deriving DecidableEq, Repr

/-- Embeds `PasswordResetToken.create` (the empty-hash rejection of the source
cannot arise for the `Sha256Hash` type). -/
def PasswordResetToken.create (tokenHash : Sha256Hash) (userId : String) (expiresAt : Millis)
    (freshId : String) (now : Millis) : PasswordResetToken :=
  ⟨freshId, tokenHash, userId, expiresAt, now⟩

/-- Strict comparison `new Date() > this.expiresAt`. -/
def PasswordResetToken.isExpired (t : PasswordResetToken) (now : Millis) : Bool :=
  now > t.expiresAt

/- Store state and repository adapters

Each adapter operation is embedded as a pure function on the list of
records backing the relevant table/collection.  Operations that the
adapters let fail (store-level write failures) are guarded by fault
flags at the call sites inside the use cases. -/

/-- The two `users` stores seen by the user CRUD use cases. -/
structure UserStores where
  mongoUsers : List User
  mysqlUsers : List User
  deriving DecidableEq, Repr

/-- The stores seen by the auth use cases. -/
structure AuthStores where
  mongoUsers : List AuthUser
  mysqlUsers : List AuthUser
  mongoTokens : List RefreshToken
  mysqlTokens : List RefreshToken
  mongoResets : List PasswordResetToken
  mysqlResets : List PasswordResetToken
  deriving DecidableEq, Repr

/-- A pair of injected store-write failures for one dual-write pair. -/
structure DualFaults where
  mongo : Bool
  mysql : Bool
  deriving DecidableEq, Repr

def noFaults : DualFaults := ⟨false, false⟩

def findUserByEmail (users : List User) (e : Email) : Option User :=
  users.find? fun u => u.email == e

def findUserById (users : List User) (id : String) : Option User :=
  users.find? fun u => u.id == id

/-- Embeds `MongoDBUserRepository.save`: the duplicate-key error (code 11000,
from the unique email index or the `_id` key) is mapped to an untyped
`new Error`. -/
def mongoUserSave (u : User) (users : List User) : Except AppErr (List User) :=
  if users.any fun v => v.email == u.email || v.id == u.id then
    .error (.plain "User with this email already exists")
  else .ok (users ++ [u])

/-- Embeds `MySQLUserRepository.save`: `ER_DUP_ENTRY` is mapped to an untyped
`new Error`. -/
def mysqlUserSave (u : User) (users : List User) : Except AppErr (List User) :=
  if users.any fun v => v.email == u.email || v.id == u.id then
    .error (.plain "User with this email already exists")
  else .ok (users ++ [u])

/-- Embeds `MongoDBUserRepository.update`: untyped `new Error` when no document
matches the id. -/
def mongoUserUpdate (u : User) (users : List User) : Except AppErr (List User) :=
  if users.any fun v => v.id == u.id then
    .ok (users.map fun v => if v.id == u.id then u else v)
  else .error (.plain "User not found")

/-- Embeds `MySQLUserRepository.update`: untyped `new Error` when
`affectedRows` is zero. -/
def mysqlUserUpdate (u : User) (users : List User) : Except AppErr (List User) :=
  if users.any fun v => v.id == u.id then
    .ok (users.map fun v => if v.id == u.id then u else v)
  else .error (.plain "User not found")

/-- Embeds `MongoDBUserRepository.delete`: untyped `new Error` when absent. -/
def mongoUserDelete (id : String) (users : List User) : Except AppErr (List User) :=
  if users.any fun v => v.id == id then
    .ok (users.filter fun v => !(v.id == id))
  else .error (.plain "User not found")

/-- Embeds `MySQLUserRepository.delete`: untyped `new Error` when
`affectedRows` is zero. -/
def mysqlUserDelete (id : String) (users : List User) : Except AppErr (List User) :=
  if users.any fun v => v.id == id then
    .ok (users.filter fun v => !(v.id == id))
  else .error (.plain "User not found")

def userExists (users : List User) (id : String) : Bool :=
  users.any fun v => v.id == id

def findAuthUserByEmail (users : List AuthUser) (e : Email) : Option AuthUser :=
  users.find? fun u => u.email == e

def findAuthUserById (users : List AuthUser) (id : String) : Option AuthUser :=
  users.find? fun u => u.id == id

/-- MongoDB save of the auth-capable user record (duplicate key 11000
mapped to an untyped `new Error`). -/
def mongoAuthUserSave (u : AuthUser) (users : List AuthUser) : Except AppErr (List AuthUser) :=
  if users.any fun v => v.email == u.email || v.id == u.id then
    .error (.plain "User with this email already exists")
  else .ok (users ++ [u])

/-- Embeds `PrismaUserRepository.save`: P2002 (unique constraint) is mapped to a
typed `ConflictError`. -/
def prismaUserSave (u : AuthUser) (users : List AuthUser) : Except AppErr (List AuthUser) :=
  if users.any fun v => v.email == u.email || v.id == u.id then
    .error (.conflict "User with this email already exists")
  else .ok (users ++ [u])

/-- MongoDB update of the auth-capable user record. -/
def mongoAuthUserUpdate (u : AuthUser) (users : List AuthUser) : Except AppErr (List AuthUser) :=
  if users.any fun v => v.id == u.id then
    .ok (users.map fun v => if v.id == u.id then u else v)
  else .error (.plain "User not found")

/-- Embeds `PrismaUserRepository.update`: P2025 mapped to a typed
`NotFoundError`, P2002 to a typed `ConflictError`. -/
def prismaUserUpdate (u : AuthUser) (users : List AuthUser) : Except AppErr (List AuthUser) :=
  if !(users.any fun v => v.id == u.id) then .error (.notFound "User not found")
  else if users.any fun v => !(v.id == u.id) && v.email == u.email then
    .error (.conflict "User with this email already exists")
  else .ok (users.map fun v => if v.id == u.id then u else v)

/-- Embeds `PrismaUserRepository.delete`: P2025 mapped to a typed
`NotFoundError`. -/
def prismaUserDelete (id : String) (users : List AuthUser) : Except AppErr (List AuthUser) :=
  if users.any fun v => v.id == id then
    .ok (users.filter fun v => !(v.id == id))
  else .error (.notFound "User not found")

/-- Embeds `findByToken` (both adapters): lookup by the token string. -/
def tokensFindByToken (tok : JwtToken) (ts : List RefreshToken) : Option RefreshToken :=
  ts.find? fun t => t.token == tok

/-- Embeds `deleteByToken` (both adapters): MongoDB `deleteOne` matches zero or
more silently; the Prisma adapter catches P2025 and returns.  Neither
signals when nothing is deleted. -/
def tokensDeleteByToken (tok : JwtToken) (ts : List RefreshToken) : List RefreshToken :=
  ts.filter fun t => !(t.token == tok)

/-- Embeds `deleteAllByUserId` (both adapters): `deleteMany`, silent on zero
matches. -/
def tokensDeleteAllByUserId (uid : String) (ts : List RefreshToken) : List RefreshToken :=
  ts.filter fun t => !(t.userId == uid)

/-- Embeds `save` (both adapters; no duplicate handling in the source). -/
def tokensSave (t : RefreshToken) (ts : List RefreshToken) : List RefreshToken :=
  ts ++ [t]

/-- Embeds `findByTokenHash` (both adapters). -/
def resetsFindByHash (h : Sha256Hash) (ts : List PasswordResetToken) :
    Option PasswordResetToken :=
  ts.find? fun t => t.tokenHash == h

/-- Embeds `deleteAllByUserId` (both adapters): `deleteMany`, silent. -/
def resetsDeleteAllByUserId (uid : String) (ts : List PasswordResetToken) :
    List PasswordResetToken :=
  ts.filter fun t => !(t.userId == uid)

/-- MongoDB `deleteOne` by id: silent on zero matches. -/
def mongoResetsDeleteById (id : String) (ts : List PasswordResetToken) :
    List PasswordResetToken :=
  ts.filter fun t => !(t.id == id)

/-- Embeds `save` (both adapters). -/
def resetsSave (t : PasswordResetToken) (ts : List PasswordResetToken) :
    List PasswordResetToken :=
  ts ++ [t]

/- DTOs -/

structure CreateUserDTO where
  name : String
  email : String
  age : Option Int
  deriving DecidableEq, Repr

structure UpdateUserDTO where
  name : Option String
  email : Option String
  age : Option Int
  deriving DecidableEq, Repr

structure UserDTO where
  id : String
  name : String
  email : String
  age : Option Int
  createdAt : Millis
  updatedAt : Millis
  deriving DecidableEq, Repr

def User.toDTO (u : User) : UserDTO :=
  ⟨u.id, u.name, u.email.value, u.age, u.createdAt, u.updatedAt⟩

structure LoginUserDTO where
  email : String
  password : String
  deriving DecidableEq, Repr

structure RegisterUserDTO where
  name : String
  email : String
  password : String
  role : Option String
  age : Option Int
  deriving DecidableEq, Repr

structure AuthUserDTO where
  id : String
  name : String
  email : String
  role : UserRole
  deriving DecidableEq, Repr

structure AuthTokenDTO where
  accessToken : JwtToken
  refreshToken : JwtToken
  user : AuthUserDTO
  deriving DecidableEq, Repr

structure RequestPasswordResetResult where
  resetToken : Option String
  expiresAt : Option Millis
  deriving DecidableEq, Repr

def payloadOf (u : AuthUser) : JwtPayload := ⟨u.id, u.email.value, u.role⟩

/- User CRUD use cases

`freshId` arguments stand for the uuids generated during the call and
`now` for `new Date()`.  Sequential dual writes (`await mongo; await
mysql`) stop at the first failure; `Promise.all` pairs attempt both. -/

/-- Embeds `CreateUserUseCase.execute`. -/
def createUser (f : DualFaults) (st : UserStores) (dto : CreateUserDTO) (freshId : String)
    (now : Millis) : Except AppErr UserDTO × UserStores :=
  match Email.create dto.email with
  | .error e => (.error e, st)
  | .ok em =>
  match findUserByEmail st.mongoUsers em with
  | some _ => (.error (.plain "User with this email already exists"), st)
  | none =>
  match User.create dto.name dto.email dto.age freshId now with
  | .error e => (.error e, st)
  | .ok user =>
    if f.mongo then (.error (.database "mongo save failed"), st)
    else match mongoUserSave user st.mongoUsers with
      | .error e => (.error e, st)
      | .ok mu =>
        let st1 := { st with mongoUsers := mu }
        if f.mysql then (.error (.database "mysql save failed"), st1)
        else match mysqlUserSave user st1.mysqlUsers with
          | .error e => (.error e, st1)
          | .ok my => (.ok user.toDTO, { st1 with mysqlUsers := my })

/-- Embeds `GetUserByIdUseCase.execute` (read-only, document store only). -/
def getUserById (st : UserStores) (id : String) : Except AppErr UserDTO :=
  match UserId.fromString id with
  | .error e => .error e
  | .ok uid =>
  match findUserById st.mongoUsers uid with
  | none => .error (.plain "User not found")
  | some u => .ok u.toDTO

/-- The entity-mutation phase of `UpdateUserUseCase.execute`: apply only
the fields present in the DTO, re-checking email uniqueness against the
read store excluding the entity itself. -/
def updateUserApplyFields (mongoUsers : List User) (uid : String) (user0 : User)
    (dto : UpdateUserDTO) (now : Millis) : Except AppErr User := do
  let u1 ← match dto.name with
    | none => .ok user0
    | some n => user0.updateName n now
  let u2 ← match dto.email with
    | none => .ok u1
    | some es => do
        let em ← Email.create es
        match findUserByEmail mongoUsers em with
        | some ex =>
          if !(ex.id == uid) then .error (.plain "Email already taken by another user")
          else u1.updateEmail es now
        | none => u1.updateEmail es now
  match dto.age with
  | none => .ok u2
  | some a => u2.updateAge a now

/-- Embeds `UpdateUserUseCase.execute`. -/
def updateUser (f : DualFaults) (st : UserStores) (id : String) (dto : UpdateUserDTO)
    (now : Millis) : Except AppErr UserDTO × UserStores :=
  match UserId.fromString id with
  | .error e => (.error e, st)
  | .ok uid =>
  match findUserById st.mongoUsers uid with
  | none => (.error (.plain "User not found"), st)
  | some user0 =>
  match updateUserApplyFields st.mongoUsers uid user0 dto now with
  | .error e => (.error e, st)
  | .ok user =>
    if f.mongo then (.error (.database "mongo update failed"), st)
    else match mongoUserUpdate user st.mongoUsers with
      | .error e => (.error e, st)
      | .ok mu =>
        let st1 := { st with mongoUsers := mu }
        if f.mysql then (.error (.database "mysql update failed"), st1)
        else match mysqlUserUpdate user st1.mysqlUsers with
          | .error e => (.error e, st1)
          | .ok my => (.ok user.toDTO, { st1 with mysqlUsers := my })

/-- Embeds `DeleteUserUseCase.execute`. -/
def deleteUser (f : DualFaults) (st : UserStores) (id : String) :
    Except AppErr Unit × UserStores :=
  match UserId.fromString id with
  | .error e => (.error e, st)
  | .ok uid =>
  if userExists st.mongoUsers uid then
    if f.mongo then (.error (.database "mongo delete failed"), st)
    else match mongoUserDelete uid st.mongoUsers with
      | .error e => (.error e, st)
      | .ok mu =>
        let st1 := { st with mongoUsers := mu }
        if f.mysql then (.error (.database "mysql delete failed"), st1)
        else match mysqlUserDelete uid st1.mysqlUsers with
          | .error e => (.error e, st1)
          | .ok my => (.ok (), { st1 with mysqlUsers := my })
  else (.error (.plain "User not found"), st)

/- Auth use cases -/

/-- Embeds `LoginUserUseCase.execute`: read user from the document store, verify
the password, then dual-write a new refresh token (sequential, MongoDB
first). -/
def loginUser (f : DualFaults) (st : AuthStores) (dto : LoginUserDTO) (freshId : String)
    (now : Millis) : Except AppErr AuthTokenDTO × AuthStores :=
  match Email.create dto.email with
  | .error e => (.error e, st)
  | .ok em =>
  match findAuthUserByEmail st.mongoUsers em with
  | none => (.error (.unauthorized "Invalid email or password"), st)
  | some user =>
    if !(user.verifyPassword dto.password) then
      (.error (.unauthorized "Invalid email or password"), st)
    else
      let payload := payloadOf user
      let accessToken := JwtUtil.generateAccessToken payload now
      let refreshTokenString := JwtUtil.generateRefreshToken payload now
      let rt := RefreshToken.create refreshTokenString user.id
        (JwtUtil.getRefreshTokenExpiryDate now) freshId now
      if f.mongo then (.error (.database "mongo save failed"), st)
      else
        let st1 := { st with mongoTokens := tokensSave rt st.mongoTokens }
        if f.mysql then (.error (.database "mysql save failed"), st1)
        else
          (.ok ⟨accessToken, refreshTokenString, ⟨user.id, user.name, user.email.value, user.role⟩⟩,
            { st1 with mysqlTokens := tokensSave rt st1.mysqlTokens })

/-- Injected faults for the two dual-write pairs of the refresh flow. -/
structure RefreshFaults where
  del : DualFaults
  save : DualFaults
  deriving DecidableEq, Repr

def noRefreshFaults : RefreshFaults := ⟨noFaults, noFaults⟩

/-- Embeds `RefreshTokenUseCase.execute`: verify the JWT (any verification error
becomes Unauthorized), look the stored token up in the document store,
reject revoked/expired/mismatched tokens, reload the user, then rotate:
delete the old token from both stores and save a brand-new one. -/
def refreshTokenUC (f : RefreshFaults) (st : AuthStores) (dtoToken : JwtToken)
    (freshId : String) (now : Millis) : Except AppErr (JwtToken × JwtToken) × AuthStores :=
  match JwtUtil.verifyRefreshToken dtoToken now with
  | .error _ => (.error (.unauthorized "Invalid or expired refresh token"), st)
  | .ok payload =>
  match tokensFindByToken dtoToken st.mongoTokens with
  | none => (.error (.unauthorized "Refresh token not found or has been revoked"), st)
  | some storedToken =>
    if storedToken.isExpired now then
      if f.del.mongo then (.error (.database "mongo delete failed"), st)
      else
        let st1 := { st with mongoTokens := tokensDeleteByToken dtoToken st.mongoTokens }
        if f.del.mysql then (.error (.database "mysql delete failed"), st1)
        else
          (.error (.unauthorized "Refresh token has expired"),
            { st1 with mysqlTokens := tokensDeleteByToken dtoToken st1.mysqlTokens })
    else
      match UserId.fromString payload.userId with
      | .error e => (.error e, st)
      | .ok uid =>
      if !(storedToken.belongsToUser uid) then (.error (.unauthorized "Token mismatch"), st)
      else
      match findAuthUserById st.mongoUsers uid with
      | none => (.error (.notFound "User not found"), st)
      | some user =>
        let newPayload := payloadOf user
        let newAccessToken := JwtUtil.generateAccessToken newPayload now
        let newRefreshTokenString := JwtUtil.generateRefreshToken newPayload now
        if f.del.mongo then (.error (.database "mongo delete failed"), st)
        else
          let st1 := { st with mongoTokens := tokensDeleteByToken dtoToken st.mongoTokens }
          if f.del.mysql then (.error (.database "mysql delete failed"), st1)
          else
            let st2 := { st1 with mysqlTokens := tokensDeleteByToken dtoToken st1.mysqlTokens }
            let newRt := RefreshToken.create newRefreshTokenString user.id
              (JwtUtil.getRefreshTokenExpiryDate now) freshId now
            if f.save.mongo then (.error (.database "mongo save failed"), st2)
            else
              let st3 := { st2 with mongoTokens := tokensSave newRt st2.mongoTokens }
              if f.save.mysql then (.error (.database "mysql save failed"), st3)
              else
                (.ok (newAccessToken, newRefreshTokenString),
                  { st3 with mysqlTokens := tokensSave newRt st3.mysqlTokens })

/-- Embeds `LogoutUserUseCase.execute`: delete every refresh token of the user
from both stores (sequential, MongoDB first). -/
def logoutUser (f : DualFaults) (st : AuthStores) (userId : String) :
    Except AppErr Unit × AuthStores :=
  match UserId.fromString userId with
  | .error e => (.error e, st)
  | .ok uid =>
  if f.mongo then (.error (.database "mongo delete failed"), st)
  else
    let st1 := { st with mongoTokens := tokensDeleteAllByUserId uid st.mongoTokens }
    if f.mysql then (.error (.database "mysql delete failed"), st1)
    else (.ok (), { st1 with mysqlTokens := tokensDeleteAllByUserId uid st1.mysqlTokens })

/-- Embeds `LogoutUserUseCase.executeWithToken`: delete one refresh token by its
string value from both stores. -/
def logoutUserWithToken (f : DualFaults) (st : AuthStores) (tok : JwtToken) :
    Except AppErr Unit × AuthStores :=
  if f.mongo then (.error (.database "mongo delete failed"), st)
  else
    let st1 := { st with mongoTokens := tokensDeleteByToken tok st.mongoTokens }
    if f.mysql then (.error (.database "mysql delete failed"), st1)
    else (.ok (), { st1 with mysqlTokens := tokensDeleteByToken tok st1.mysqlTokens })

/-- Injected faults for the two `Promise.all` pairs of the
request-password-reset flow. -/
structure RequestResetFaults where
  deleteAll : DualFaults
  save : DualFaults
  deriving DecidableEq, Repr

def noRequestResetFaults : RequestResetFaults := ⟨noFaults, noFaults⟩

/-- Embeds `RequestPasswordResetUseCase.execute`: neutral no-op result for an
unknown email; otherwise delete all previous reset tokens of the user
and save one new record — both steps as `Promise.all` pairs, so both
sides of each pair are attempted even if one fails.  `rawToken` stands
for the generated random token. -/
def requestPasswordReset (f : RequestResetFaults) (st : AuthStores) (emailStr : String)
    (rawToken : String) (freshId : String) (now : Millis) :
    Except AppErr RequestPasswordResetResult × AuthStores :=
  match Email.create emailStr with
  | .error e => (.error e, st)
  | .ok em =>
  match findAuthUserByEmail st.mongoUsers em with
  | none => (.ok ⟨none, none⟩, st)
  | some user =>
    let st1 :=
      if f.deleteAll.mysql then st
      else { st with mysqlResets := resetsDeleteAllByUserId user.id st.mysqlResets }
    let st2 :=
      if f.deleteAll.mongo then st1
      else { st1 with mongoResets := resetsDeleteAllByUserId user.id st1.mongoResets }
    if f.deleteAll.mysql || f.deleteAll.mongo then (.error (.database "delete failed"), st2)
    else
      let tokenHash := hashPasswordResetToken rawToken
      let expiresAt := getPasswordResetExpiryDate now
      let prt := PasswordResetToken.create tokenHash user.id expiresAt freshId now
      let st3 :=
        if f.save.mongo then st2
        else { st2 with mongoResets := resetsSave prt st2.mongoResets }
      let st4 :=
        if f.save.mysql then st3
        else { st3 with mysqlResets := resetsSave prt st3.mysqlResets }
      if f.save.mongo || f.save.mysql then (.error (.database "save failed"), st4)
      else (.ok ⟨some rawToken, some expiresAt⟩, st4)

/-- Embeds `ResetPasswordUseCase.removeToken`: `Promise.all` of MongoDB
`deleteOne` (silent) and Prisma `delete` by id, which throws when no row
matches (this repository does not catch P2025). -/
def removeToken (prt : PasswordResetToken) (st : AuthStores) :
    Except AppErr Unit × AuthStores :=
  let st1 := { st with mongoResets := mongoResetsDeleteById prt.id st.mongoResets }
  if st1.mysqlResets.any fun t => t.id == prt.id then
    (.ok (), { st1 with mysqlResets := mongoResetsDeleteById prt.id st1.mysqlResets })
  else (.error (.database "Record to delete does not exist"), st1)

/-- Injected faults for the `Promise.all` user-update pair of the
reset-password flow. -/
structure ResetFaults where
  update : DualFaults
  deriving DecidableEq, Repr

def noResetFaults : ResetFaults := ⟨noFaults⟩

/-- Embeds `ResetPasswordUseCase.execute`: look the hashed token up in the
document store, falling back to the relational store; reject unknown or
expired tokens (deleting expired ones); load the owning user with the
same fallback, deleting the token before a user-not-found error; then
hash the new password, update the user in both stores via `Promise.all`,
and delete the consumed token from both stores. -/
def resetPassword (f : ResetFaults) (st : AuthStores) (rawToken : String)
    (newPassword : String) (now : Millis) : Except AppErr Unit × AuthStores :=
  let tokenHash := hashPasswordResetToken rawToken
  match (resetsFindByHash tokenHash st.mongoResets).orElse
      (fun _ => resetsFindByHash tokenHash st.mysqlResets) with
  | none => (.error (.unauthorized "Invalid or expired password reset token"), st)
  | some prt =>
    if prt.isExpired now then
      match removeToken prt st with
      | (.error e, st1) => (.error e, st1)
      | (.ok _, st1) => (.error (.unauthorized "Password reset token has expired"), st1)
    else
      match (findAuthUserById st.mongoUsers prt.userId).orElse
          (fun _ => findAuthUserById st.mysqlUsers prt.userId) with
      | none =>
        match removeToken prt st with
        | (.error e, st1) => (.error e, st1)
        | (.ok _, st1) => (.error (.notFound "User not found for this password reset request"), st1)
      | some user =>
        match Password.create newPassword with
        | .error e => (.error e, st)
        | .ok pw =>
          let user1 := user.updatePassword pw now
          let r1 :=
            if f.update.mongo then Except.error (AppErr.database "mongo update failed")
            else mongoAuthUserUpdate user1 st.mongoUsers
          let st1 := match r1 with
            | .ok mu => { st with mongoUsers := mu }
            | .error _ => st
          let r2 :=
            if f.update.mysql then Except.error (AppErr.database "mysql update failed")
            else prismaUserUpdate user1 st1.mysqlUsers
          let st2 := match r2 with
            | .ok my => { st1 with mysqlUsers := my }
            | .error _ => st1
          match r1, r2 with
          | .error e, _ => (.error e, st2)
          | _, .error e => (.error e, st2)
          | .ok _, .ok _ =>
            match removeToken prt st2 with
            | (.error e, st3) => (.error e, st3)
            | (.ok _, st3) => (.ok (), st3)

/-- Injected faults for the two dual-write pairs of the register flow. -/
structure RegisterFaults where
  userSave : DualFaults
  tokenSave : DualFaults
  deriving DecidableEq, Repr

def noRegisterFaults : RegisterFaults := ⟨noFaults, noFaults⟩

/-- Embeds `RegisterUserUseCase.execute`. -/
def registerUser (f : RegisterFaults) (st : AuthStores) (dto : RegisterUserDTO)
    (userFreshId tokenFreshId : String) (now : Millis) :
    Except AppErr AuthTokenDTO × AuthStores :=
  match Email.create dto.email with
  | .error e => (.error e, st)
  | .ok em =>
  match findAuthUserByEmail st.mongoUsers em with
  | some _ => (.error (.conflict "User with this email already exists"), st)
  | none =>
  match Password.create dto.password with
  | .error e => (.error e, st)
  | .ok hashedPassword =>
  match
    (match dto.role with
     | some r => if r ≠ "" then Role.create r else Role.create "USER"
     | none => Role.create "USER") with
  | .error e => (.error e, st)
  | .ok role =>
  match AuthUser.create dto.name dto.email hashedPassword (some role) dto.age userFreshId now with
  | .error e => (.error e, st)
  | .ok user =>
    if f.userSave.mongo then (.error (.database "mongo save failed"), st)
    else match mongoAuthUserSave user st.mongoUsers with
      | .error e => (.error e, st)
      | .ok mu =>
        let st1 := { st with mongoUsers := mu }
        if f.userSave.mysql then (.error (.database "mysql save failed"), st1)
        else match prismaUserSave user st1.mysqlUsers with
          | .error e => (.error e, st1)
          | .ok my =>
            let st2 := { st1 with mysqlUsers := my }
            let payload := payloadOf user
            let accessToken := JwtUtil.generateAccessToken payload now
            let refreshTokenString := JwtUtil.generateRefreshToken payload now
            let rt := RefreshToken.create refreshTokenString user.id
              (JwtUtil.getRefreshTokenExpiryDate now) tokenFreshId now
            if f.tokenSave.mongo then (.error (.database "mongo save failed"), st2)
            else
              let st3 := { st2 with mongoTokens := tokensSave rt st2.mongoTokens }
              if f.tokenSave.mysql then (.error (.database "mysql save failed"), st3)
              else
                (.ok ⟨accessToken, refreshTokenString,
                    ⟨user.id, user.name, user.email.value, user.role⟩⟩,
                  { st3 with mysqlTokens := tokensSave rt st3.mysqlTokens })

/- Entity-to-storage mappings (round-trip layer) -/

/-- A row of the MySQL `users` table as written and read by the manual
`MySQLUserRepository`. -/
structure UserRow where
  id : String
  name : String
  email : String
  age : Option Int
  created_at : Millis
  updated_at : Millis
  deriving DecidableEq, Repr

/-- The JS expression `x || null` (and `x || undefined`) on an optional
number: `0`, `null` and `undefined` are all falsy, so an age of `0`
collapses to none. -/
def jsNumOrNull : Option Int → Option Int
  | some a => if a = 0 then none else some a
  | none => none

/-- The values bound by `MySQLUserRepository.save` (note
`user.getAge() || null`). -/
def mysqlRowOf (u : User) : UserRow :=
  ⟨u.id, u.name, u.email.value, jsNumOrNull u.age, u.createdAt, u.updatedAt⟩

/-- Embeds `MySQLUserRepository.mapToUser` (note `row.age || undefined`). -/
def mysqlMapToUser (r : UserRow) : Except AppErr User := do
  let uid ← UserId.fromString r.id
  let em ← Email.create r.email
  .ok { id := uid, name := r.name, email := em, age := jsNumOrNull r.age,
        createdAt := r.created_at, updatedAt := r.updated_at }

/-- A MongoDB `users` document as written and read by
`MongoDBUserRepository`. -/
structure UserDocument where
  _id : String
  name : String
  email : String
  age : Option Int
  createdAt : Millis
  updatedAt : Millis
  deriving DecidableEq, Repr

/-- The document built by `MongoDBUserRepository.save` (age passed
through unchanged). -/
def mongoDocOf (u : User) : UserDocument :=
  ⟨u.id, u.name, u.email.value, u.age, u.createdAt, u.updatedAt⟩

/-- Embeds `MongoDBUserRepository.mapToUser` (age passed through unchanged). -/
def mongoMapToUser (d : UserDocument) : Except AppErr User := do
  let uid ← UserId.fromString d._id
  let em ← Email.create d.email
  .ok { id := uid, name := d.name, email := em, age := d.age,
        createdAt := d.createdAt, updatedAt := d.updatedAt }

/- Concrete fixtures shared by counterexamples and witnesses -/

def emFix : Email := ⟨"al@ex.com"⟩

def pwFix : Password := ⟨.bcrypt "Str0ng!pass"⟩

def userFix : AuthUser := ⟨"u1", "Al", emFix, pwFix, .USER, none, 0, 0⟩

def payloadFix : JwtPayload := ⟨"u1", "al@ex.com", .USER⟩

/-- The refresh token signed at instant 1000 for `userFix`
(equals `JwtUtil.generateRefreshToken payloadFix 1000`). -/
def jtFix : JwtToken := ⟨JwtUtil.REFRESH_TOKEN_SECRET, payloadFix, 604801000⟩

def rtFix : RefreshToken := ⟨"t1", jtFix, "u1", 604801000, 1000⟩

def authStFix : AuthStores := ⟨[userFix], [userFix], [rtFix], [rtFix], [], []⟩

def plainUserFix : User := ⟨"u1", "Al", emFix, none, 0, 0⟩

def jtOtherFix : JwtToken := ⟨JwtUtil.REFRESH_TOKEN_SECRET, ⟨"u9", "x@y.z", .USER⟩, 5⟩

def rtOtherFix : RefreshToken := ⟨"t9", jtOtherFix, "u9", 5, 5⟩

/-- Like `authStFix` but with an unrelated second token in the MySQL
store. -/
def authStFix2 : AuthStores := ⟨[userFix], [userFix], [rtFix], [rtOtherFix, rtFix], [], []⟩

/- Supporting lemmas -/

theorem contains_iff_mem (l : List Char) (c : Char) : l.contains c = true ↔ c ∈ l := by
  unfold List.contains
  exact List.elem_iff

theorem innerDot_iff (dom : List Char) :
    innerDot dom = true ↔ ∃ a b : List Char, dom = a ++ '.' :: b ∧ a ≠ [] ∧ b ≠ [] := by
  constructor
  · intro h
    have hm : '.' ∈ (dom.drop 1).dropLast := (contains_iff_mem _ _).mp h
    rcases List.mem_iff_getElem.mp hm with ⟨i, hi, hget⟩
    have hlen : ((dom.drop 1).dropLast).length = dom.length - 1 - 1 := by
      simp [List.length_dropLast, List.length_drop]
    have hi3 : i + 2 < dom.length := by omega
    have hi1 : i + 1 < dom.length := by omega
    have hlen1 : i < (dom.drop 1).length := by
      simp only [List.length_drop]
      omega
    have hlen2 : 1 + i < dom.length := by omega
    have hdot : dom[i + 1] = '.' := by
      have h1 : ((dom.drop 1).dropLast)[i] = (dom.drop 1)[i] := List.getElem_dropLast _ _ _
      have h2 : (dom.drop 1)[i] = dom[1 + i] := List.getElem_drop _
      rw [h1, h2] at hget
      simpa [Nat.add_comm] using hget
    refine ⟨dom.take (i + 1), dom.drop (i + 2), ?_, ?_, ?_⟩
    · conv_lhs => rw [← List.take_append_drop (i + 1) dom]
      rw [List.drop_eq_getElem_cons hi1, hdot]
    · have : (dom.take (i + 1)).length = i + 1 := by
        simp [List.length_take]; omega
      intro hnil; rw [hnil] at this; simp at this
    · have : (dom.drop (i + 2)).length = dom.length - (i + 2) := List.length_drop _ _
      intro hnil; rw [hnil] at this; simp at this; omega
  · rintro ⟨a, b, rfl, ha, hb⟩
    rcases a with _ | ⟨a0, a'⟩
    · exact absurd rfl ha
    rcases List.eq_nil_or_concat b with rfl | ⟨b', bl, rfl⟩
    · exact absurd rfl hb
    unfold innerDot
    apply (contains_iff_mem _ _).mpr
    have hshape : ((a0 :: a') ++ '.' :: b'.concat bl).drop 1 = (a' ++ '.' :: b') ++ [bl] := by
      simp [List.concat_eq_append, List.cons_append, List.append_assoc]
    rw [hshape, List.dropLast_concat]
    simp

theorem dropWhile_all_append (p : Char → Bool) (c : Char) (loc rest : List Char)
    (hloc : ∀ x ∈ loc, p x = true) (hc : p c = false) :
    (loc ++ c :: rest).dropWhile p = c :: rest := by
  induction loc with
  | nil => simp [List.dropWhile_cons, hc]
  | cons x xs ih =>
    have hx : p x = true := hloc x (by simp)
    have ih' := ih fun y hy => hloc y (by simp [hy])
    simp [List.dropWhile_cons, hx, ih']

theorem takeWhile_all_append (p : Char → Bool) (c : Char) (loc rest : List Char)
    (hloc : ∀ x ∈ loc, p x = true) (hc : p c = false) :
    (loc ++ c :: rest).takeWhile p = loc := by
  induction loc with
  | nil => simp [List.takeWhile_cons, hc]
  | cons x xs ih =>
    have hx : p x = true := hloc x (by simp)
    have ih' := ih fun y hy => hloc y (by simp [hy])
    simp [List.takeWhile_cons, hx, ih']

theorem dropWhile_head_false (p : Char → Bool) (l res : List Char) (c : Char)
    (h : l.dropWhile p = c :: res) : p c = false := by
  induction l with
  | nil => cases h
  | cons x xs ih =>
    rw [List.dropWhile_cons] at h
    split at h
    · exact ih h
    · rename_i hx
      cases h
      simpa using hx

theorem emailChar_ne_at {c : Char} (h : emailChar c = true) : c ≠ '@' := by
  simp only [emailChar, Bool.and_eq_true, decide_eq_true_eq] at h
  exact h.2

theorem matchesEmailRegex_iff (s : String) : matchesEmailRegex s = true ↔ EmailShape s := by
  unfold matchesEmailRegex EmailShape
  rcases hsplit : s.toList.dropWhile (fun c => decide (c ≠ '@')) with _ | ⟨c, dom⟩
  · simp only [hsplit]
    constructor
    · intro h; cases h
    · rintro ⟨loc, a, b, hs, hloc, ha, hb, hlocAll, haAll, hbAll⟩
      exfalso
      have hdw : s.toList.dropWhile (fun c => decide (c ≠ '@')) = '@' :: (a ++ '.' :: b) := by
        rw [hs]
        exact dropWhile_all_append _ _ _ _
          (fun x hx => by
            have hx' := List.all_eq_true.mp hlocAll x hx
            simp [emailChar_ne_at hx'])
          (by simp)
      rw [hsplit] at hdw
      cases hdw
  · have hc : c = '@' := by
      have := dropWhile_head_false _ _ _ _ hsplit
      simpa using this
    subst hc
    simp only [hsplit]
    have htake : s.toList = s.toList.takeWhile (fun c => decide (c ≠ '@')) ++ '@' :: dom := by
      conv_lhs => rw [← List.takeWhile_append_dropWhile (fun c => decide (c ≠ '@')) s.toList]
      rw [hsplit]
    constructor
    · intro h
      simp only [Bool.and_eq_true, Bool.not_eq_true', List.isEmpty_eq_false] at h
      obtain ⟨⟨⟨hne, hLall⟩, hdomall⟩, hdot⟩ := h
      rcases (innerDot_iff dom).mp hdot with ⟨a, b, hdom, ha, hb⟩
      refine ⟨s.toList.takeWhile (fun c => decide (c ≠ '@')), a, b, ?_, hne, ha, hb, hLall, ?_, ?_⟩
      · rw [hdom] at htake
        exact htake
      · rw [hdom] at hdomall
        simp [List.all_append] at hdomall
        exact List.all_eq_true.mpr fun x hx => hdomall.1 x hx
      · rw [hdom] at hdomall
        simp [List.all_append] at hdomall
        exact List.all_eq_true.mpr fun x hx => hdomall.2.2 x hx
    · rintro ⟨loc, a, b, hs, hloc, ha, hb, hlocAll, haAll, hbAll⟩
      have hdw : s.toList.dropWhile (fun c => decide (c ≠ '@')) = '@' :: (a ++ '.' :: b) := by
        rw [hs]
        exact dropWhile_all_append _ _ _ _
          (fun x hx => by
            have hx' := List.all_eq_true.mp hlocAll x hx
            simp [emailChar_ne_at hx'])
          (by simp)
      rw [hsplit] at hdw
      obtain ⟨rfl⟩ : dom = a ++ '.' :: b := by
        cases hdw; rfl
      have htw : s.toList.takeWhile (fun c => decide (c ≠ '@')) = loc := by
        rw [hs]
        exact takeWhile_all_append _ _ _ _
          (fun x hx => by
            have hx' := List.all_eq_true.mp hlocAll x hx
            simp [emailChar_ne_at hx'])
          (by simp)
      rw [htw]
      simp only [Bool.and_eq_true, Bool.not_eq_true', List.isEmpty_eq_false]
      refine ⟨⟨⟨hloc, hlocAll⟩, ?_⟩, ?_⟩
      · simp [List.all_append, List.all_cons]
        refine ⟨fun x hx => List.all_eq_true.mp haAll x hx, by decide,
          fun x hx => List.all_eq_true.mp hbAll x hx⟩
      · exact (innerDot_iff _).mpr ⟨a, b, rfl, ha, hb⟩

theorem emailChar_not_ws {c : Char} (h : emailChar c = true) : isJsWhitespace c = false := by
  simp only [emailChar, Bool.and_eq_true, Bool.not_eq_true'] at h
  exact h.1

/-- A string of the email shape contains no whitespace at all: the regex
runs on the raw input, so padded inputs can never validate. -/
theorem EmailShape_no_whitespace {s : String} (h : EmailShape s) :
    s.toList.all (fun c => !isJsWhitespace c) = true := by
  rcases h with ⟨loc, a, b, hs, _, _, _, hlocAll, haAll, hbAll⟩
  rw [hs]
  simp only [List.all_append, List.all_cons, Bool.and_eq_true]
  refine ⟨List.all_eq_true.mpr fun x hx => ?_, by decide,
    List.all_eq_true.mpr fun x hx => ?_, by decide,
    List.all_eq_true.mpr fun x hx => ?_⟩
  · simp [emailChar_not_ws (List.all_eq_true.mp hlocAll x hx)]
  · simp [emailChar_not_ws (List.all_eq_true.mp haAll x hx)]
  · simp [emailChar_not_ws (List.all_eq_true.mp hbAll x hx)]

/- Claim theorems -/

/-- C6 counterexample: `john@example.com` is a valid address, its
whitespace-padded form trims back to it, yet `Email.create` rejects the
padded form with the validation error instead of succeeding — the regex
runs on the raw input before trimming. -/
theorem email_padded_valid_input_rejected :
    Email.create "john@example.com" = .ok ⟨"john@example.com"⟩ ∧
    jsTrim " john@example.com " = "john@example.com" ∧
    Email.create " john@example.com " = .error (.plain "Invalid email format") := by
  refine ⟨?_, ?_, ?_⟩ <;> decide

/-- C6 (amended): `Email.create` succeeds exactly on raw inputs of the
`local@domain.tld` shape with no whitespace anywhere (the regex is
applied before trimming, so whitespace-padded inputs fail with the
validation error); on success the stored value is the lower-cased,
trimmed input. -/
theorem email_create_characterization :
    (∀ s : String, (∃ e, Email.create s = .ok e) ↔ EmailShape s) ∧
    (∀ (s : String) (e : Email), Email.create s = .ok e → e.value = jsTrim (jsToLower s)) ∧
    (∀ s : String, EmailShape s → s.toList.all (fun c => !isJsWhitespace c) = true) := by
  refine ⟨fun s => ?_, fun s e h => ?_, fun s h => EmailShape_no_whitespace h⟩
  · rw [← matchesEmailRegex_iff]
    unfold Email.create
    constructor
    · rintro ⟨e, he⟩
      by_cases hm : matchesEmailRegex s
      · exact hm
      · rw [if_neg hm] at he
        cases he
    · intro hm
      rw [if_pos hm]
      exact ⟨_, rfl⟩
  · unfold Email.create at h
    split at h
    · cases h
      rfl
    · cases h

/-- Witness for the C6 theorem at the concrete input `A@b.c`. -/
theorem email_create_characterization_witness :
    (∃ e, Email.create "A@b.c" = .ok e) ∧
    (Email.mk "a@b.c").value = jsTrim (jsToLower "A@b.c") ∧
    ("A@b.c" : String).toList.all (fun c => !isJsWhitespace c) = true := by
  have hshape : EmailShape "A@b.c" :=
    ⟨['A'], ['b'], ['c'], by decide, by decide, by decide, by decide,
      by decide, by decide, by decide⟩
  exact ⟨(email_create_characterization.1 "A@b.c").mpr hshape,
    email_create_characterization.2.1 "A@b.c" ⟨"a@b.c"⟩ (by decide),
    email_create_characterization.2.2 "A@b.c" hshape⟩

/-- C5: evaluating the manual MySQL adapter mapping at the failing input,
a user with the legal boundary age 0: the saved row already holds NULL
(`user.getAge() || null` treats 0 as falsy) and the loaded entity holds
no age, while the MongoDB adapter round-trips the same entity, age 0
included, unchanged. -/
theorem mysql_roundtrip_drops_age_zero :
    (mysqlRowOf ⟨"u1", "Al", ⟨"al@ex.com"⟩, some 0, 5, 7⟩).age = none ∧
    mysqlMapToUser (mysqlRowOf ⟨"u1", "Al", ⟨"al@ex.com"⟩, some 0, 5, 7⟩)
      = .ok ⟨"u1", "Al", ⟨"al@ex.com"⟩, none, 5, 7⟩ ∧
    mongoMapToUser (mongoDocOf ⟨"u1", "Al", ⟨"al@ex.com"⟩, some 0, 5, 7⟩)
      = .ok ⟨"u1", "Al", ⟨"al@ex.com"⟩, some 0, 5, 7⟩ ∧
    mysqlMapToUser (mysqlRowOf ⟨"u1", "Al", ⟨"al@ex.com"⟩, some 30, 5, 7⟩)
      = .ok ⟨"u1", "Al", ⟨"al@ex.com"⟩, some 30, 5, 7⟩ := by
  refine ⟨?_, ?_, ?_, ?_⟩ <;> decide

/-- C8 counterexample: creating a user whose email already exists in the
read store raises the untyped `new Error` message, not a typed Conflict
error value. -/
theorem create_user_conflict_is_untyped :
    ((createUser noFaults ⟨[plainUserFix], [plainUserFix]⟩ ⟨"Bo", "al@ex.com", none⟩ "u2" 9).1
      = .error (.plain "User with this email already exists")) ∧
    (getUserById (⟨[], []⟩ : UserStores) "zz" = .error (.plain "User not found")) ∧
    (decide (AppErr.plain "User with this email already exists"
        = AppErr.conflict "User with this email already exists") = false) := by
  refine ⟨?_, ?_, ?_⟩ <;> decide

/-- C8 (amended): the auth use cases and the Prisma adapters raise typed
domain errors (Conflict / NotFound / Unauthorized), but the user
create / get / update / delete use cases and their duplicate-email and
not-found paths raise plain untyped `new Error` values. -/
theorem user_crud_error_shapes :
    (∀ (f : DualFaults) (st : UserStores) (dto : CreateUserDTO) (freshId : String)
        (now : Millis) (em : Email) (u : User),
      Email.create dto.email = .ok em → findUserByEmail st.mongoUsers em = some u →
      (createUser f st dto freshId now).1
        = .error (.plain "User with this email already exists")) ∧
    (∀ (st : UserStores) (id uid : String),
      UserId.fromString id = .ok uid → findUserById st.mongoUsers uid = none →
      getUserById st id = .error (.plain "User not found")) ∧
    (∀ (f : DualFaults) (st : UserStores) (id : String) (dto : UpdateUserDTO)
        (now : Millis) (uid : String),
      UserId.fromString id = .ok uid → findUserById st.mongoUsers uid = none →
      (updateUser f st id dto now).1 = .error (.plain "User not found")) ∧
    (∀ (f : DualFaults) (st : UserStores) (id uid : String),
      UserId.fromString id = .ok uid → userExists st.mongoUsers uid = false →
      (deleteUser f st id).1 = .error (.plain "User not found")) ∧
    (∀ (u : AuthUser) (users : List AuthUser),
      (∃ v ∈ users, v.email = u.email ∨ v.id = u.id) →
      prismaUserSave u users = .error (.conflict "User with this email already exists")) ∧
    (∀ (u : AuthUser) (users : List AuthUser),
      (∀ v ∈ users, v.id ≠ u.id) →
      prismaUserUpdate u users = .error (.notFound "User not found")) ∧
    (∀ (id : String) (users : List AuthUser),
      (∀ v ∈ users, v.id ≠ id) →
      prismaUserDelete id users = .error (.notFound "User not found")) := by
  refine ⟨?_, ?_, ?_, ?_, ?_, ?_, ?_⟩
  · intro f st dto freshId now em u hem hfind
    simp [createUser, hem, hfind]
  · intro st id uid hid hfind
    simp [getUserById, hid, hfind]
  · intro f st id dto now uid hid hfind
    simp [updateUser, hid, hfind]
  · intro f st id uid hid hex
    simp [deleteUser, hid, hex]
  · intro u users hex
    have hany : (users.any fun v => v.email == u.email || v.id == u.id) = true := by
      rcases hex with ⟨v, hv, hcase⟩
      refine List.any_eq_true.mpr ⟨v, hv, ?_⟩
      rcases hcase with h | h <;> simp [h]
    simp [prismaUserSave, hany]
  · intro u users hall
    have hany : (users.any fun v => v.id == u.id) = false := by
      rw [Bool.eq_false_iff]
      intro hc
      rcases List.any_eq_true.mp hc with ⟨v, hv, hveq⟩
      exact hall v hv (by simpa using hveq)
    simp [prismaUserUpdate, hany]
  · intro id users hall
    have hany : (users.any fun v => v.id == id) = false := by
      rw [Bool.eq_false_iff]
      intro hc
      rcases List.any_eq_true.mp hc with ⟨v, hv, hveq⟩
      exact hall v hv (by simpa using hveq)
    simp [prismaUserDelete, hany]

/-- Witness for the C8 theorem at concrete inputs. -/
theorem user_crud_error_shapes_witness :
    (createUser noFaults ⟨[plainUserFix], []⟩ ⟨"Bo", "al@ex.com", none⟩ "u2" 9).1
      = .error (.plain "User with this email already exists") ∧
    getUserById ⟨[], []⟩ "zz" = .error (.plain "User not found") ∧
    (updateUser noFaults ⟨[], []⟩ "zz" ⟨none, none, none⟩ 9).1
      = .error (.plain "User not found") ∧
    (deleteUser noFaults ⟨[], []⟩ "zz").1 = .error (.plain "User not found") ∧
    prismaUserSave userFix [userFix] = .error (.conflict "User with this email already exists") ∧
    prismaUserUpdate userFix [] = .error (.notFound "User not found") ∧
    prismaUserDelete "u1" [] = .error (.notFound "User not found") :=
  ⟨user_crud_error_shapes.1 noFaults ⟨[plainUserFix], []⟩ ⟨"Bo", "al@ex.com", none⟩ "u2" 9
      ⟨"al@ex.com"⟩ plainUserFix (by decide) (by decide),
    user_crud_error_shapes.2.1 ⟨[], []⟩ "zz" "zz" (by decide) (by decide),
    user_crud_error_shapes.2.2.1 noFaults ⟨[], []⟩ "zz" ⟨none, none, none⟩ 9 "zz"
      (by decide) (by decide),
    user_crud_error_shapes.2.2.2.1 noFaults ⟨[], []⟩ "zz" "zz" (by decide) (by decide),
    user_crud_error_shapes.2.2.2.2.1 userFix [userFix] ⟨userFix, by decide, Or.inl rfl⟩,
    user_crud_error_shapes.2.2.2.2.2.1 userFix [] (by simp),
    user_crud_error_shapes.2.2.2.2.2.2 "u1" [] (by simp)⟩

/-- C2: for any state and login input whose email parses, if the email
matches no stored user or the stored password comparison fails, login
fails with an Unauthorized error carrying the identical message
`Invalid email or password` in both cases, and the stores are untouched. -/
theorem login_invalid_credentials_indistinguishable :
    ∀ (f : DualFaults) (st : AuthStores) (dto : LoginUserDTO) (freshId : String)
      (now : Millis) (em : Email),
      Email.create dto.email = .ok em →
      (findAuthUserByEmail st.mongoUsers em = none ∨
        (∃ u, findAuthUserByEmail st.mongoUsers em = some u ∧
          u.verifyPassword dto.password = false)) →
      (loginUser f st dto freshId now).1 = .error (.unauthorized "Invalid email or password") ∧
      (loginUser f st dto freshId now).2 = st := by
  intro f st dto freshId now em hem hcase
  rcases hcase with hnone | ⟨u, hfind, hpw⟩
  · constructor <;> simp [loginUser, hem, hnone]
  · constructor <;> simp [loginUser, hem, hfind, hpw]

/-- Witness for the C2 theorem: wrong password and unknown email at
concrete inputs. -/
theorem login_invalid_credentials_indistinguishable_witness :
    ((loginUser noFaults authStFix ⟨"al@ex.com", "wrong"⟩ "t2" 2000).1
      = .error (.unauthorized "Invalid email or password")) ∧
    ((loginUser noFaults authStFix ⟨"bo@ex.com", "Str0ng!pass"⟩ "t2" 2000).1
      = .error (.unauthorized "Invalid email or password")) :=
  ⟨(login_invalid_credentials_indistinguishable noFaults authStFix ⟨"al@ex.com", "wrong"⟩
      "t2" 2000 ⟨"al@ex.com"⟩ (by decide) (Or.inr ⟨userFix, by decide, by decide⟩)).1,
    (login_invalid_credentials_indistinguishable noFaults authStFix ⟨"bo@ex.com", "Str0ng!pass"⟩
      "t2" 2000 ⟨"bo@ex.com"⟩ (by decide) (Or.inl (by decide))).1⟩

/-- C10: logout never produces a not-found failure: both variants return
success for any store contents, applying the silent delete-by-user and
delete-by-token operations, and they are exact no-ops when no stored
token matches. -/
theorem logout_never_not_found :
    (∀ (st : AuthStores) (userId : String), jsTrim userId ≠ "" →
      (logoutUser noFaults st userId).1 = .ok () ∧
      (logoutUser noFaults st userId).2
        = { st with mongoTokens := tokensDeleteAllByUserId userId st.mongoTokens,
                    mysqlTokens := tokensDeleteAllByUserId userId st.mysqlTokens }) ∧
    (∀ (st : AuthStores) (tok : JwtToken),
      (logoutUserWithToken noFaults st tok).1 = .ok () ∧
      (logoutUserWithToken noFaults st tok).2
        = { st with mongoTokens := tokensDeleteByToken tok st.mongoTokens,
                    mysqlTokens := tokensDeleteByToken tok st.mysqlTokens }) ∧
    (∀ (st : AuthStores) (userId : String), jsTrim userId ≠ "" →
      (∀ t ∈ st.mongoTokens, t.userId ≠ userId) →
      (∀ t ∈ st.mysqlTokens, t.userId ≠ userId) →
      (logoutUser noFaults st userId).2 = st) ∧
    (∀ (st : AuthStores) (tok : JwtToken),
      (∀ t ∈ st.mongoTokens, t.token ≠ tok) →
      (∀ t ∈ st.mysqlTokens, t.token ≠ tok) →
      (logoutUserWithToken noFaults st tok).2 = st) := by
  refine ⟨?_, ?_, ?_, ?_⟩
  · intro st userId hne
    constructor <;> simp [logoutUser, UserId.fromString, hne, noFaults]
  · intro st tok
    constructor <;> simp [logoutUserWithToken, noFaults]
  · intro st userId hne h1 h2
    cases st
    simp [logoutUser, UserId.fromString, hne, noFaults, tokensDeleteAllByUserId] at *
    exact ⟨h1, h2⟩
  · intro st tok h1 h2
    cases st
    simp [logoutUserWithToken, noFaults, tokensDeleteByToken] at *
    exact ⟨h1, h2⟩

/-- Witness for the C10 theorem: logout for a user owning no tokens and
for a token string matching no record, on a concrete nonempty store. -/
theorem logout_never_not_found_witness :
    ((logoutUser noFaults authStFix "ghost").1 = .ok ()) ∧
    ((logoutUser noFaults authStFix "ghost").2 = authStFix) ∧
    ((logoutUserWithToken noFaults authStFix
        ⟨"refresh-token-secret", ⟨"u9", "x@y.z", .USER⟩, 5⟩).1 = .ok ()) ∧
    ((logoutUserWithToken noFaults authStFix
        ⟨"refresh-token-secret", ⟨"u9", "x@y.z", .USER⟩, 5⟩).2 = authStFix) :=
  ⟨(logout_never_not_found.1 authStFix "ghost" (by decide)).1,
    logout_never_not_found.2.2.1 authStFix "ghost" (by decide) (by decide) (by decide),
    (logout_never_not_found.2.1 authStFix ⟨"refresh-token-secret", ⟨"u9", "x@y.z", .USER⟩, 5⟩).1,
    logout_never_not_found.2.2.2 authStFix ⟨"refresh-token-secret", ⟨"u9", "x@y.z", .USER⟩, 5⟩
      (by decide) (by decide)⟩

/-- C1 counterexample: in `RequestPasswordResetUseCase` the dual save is
a `Promise.all` pair, so when the document-store save fails the
relational save is still attempted: the MySQL store ends up holding the
new reset-token record even though the first write threw, refuting both
the relational-store-second ordering and the never-attempted guarantee
for the password-reset use cases. -/
theorem request_reset_dual_write_not_sequential :
    ((requestPasswordReset ⟨⟨false, false⟩, ⟨true, false⟩⟩
        ⟨[userFix], [], [], [], [], []⟩ "al@ex.com" "raw1" "p1" 500).1
      = .error (.database "save failed")) ∧
    ((requestPasswordReset ⟨⟨false, false⟩, ⟨true, false⟩⟩
        ⟨[userFix], [], [], [], [], []⟩ "al@ex.com" "raw1" "p1" 500).2.mysqlResets
      = [⟨"p1", .sha256 "raw1", "u1", 1800500, 500⟩]) ∧
    ((requestPasswordReset ⟨⟨false, false⟩, ⟨true, false⟩⟩
        ⟨[userFix], [], [], [], [], []⟩ "al@ex.com" "raw1" "p1" 500).2.mongoResets = []) := by
  refine ⟨?_, ?_, ?_⟩ <;> decide

/-- C1 (amended): the user and refresh-token mutating use cases
(create / update / delete user, login, register, refresh, logout) issue
their dual writes sequentially with the document store first and the
relational store second, and when the document-store write of a pair
throws, the relational write of that pair is never attempted; the
password-reset use cases instead issue their dual writes through
`Promise.all`, so the relational write is attempted even when the
document-store write fails. -/
theorem dual_write_ordering :
    (∀ (f : DualFaults) (st : UserStores) (dto : CreateUserDTO) (freshId : String)
        (now : Millis), f.mongo = true →
      (createUser f st dto freshId now).2.mysqlUsers = st.mysqlUsers) ∧
    (∀ (f : DualFaults) (st : UserStores) (id : String) (dto : UpdateUserDTO)
        (now : Millis), f.mongo = true →
      (updateUser f st id dto now).2.mysqlUsers = st.mysqlUsers) ∧
    (∀ (f : DualFaults) (st : UserStores) (id : String), f.mongo = true →
      (deleteUser f st id).2.mysqlUsers = st.mysqlUsers) ∧
    (∀ (f : DualFaults) (st : AuthStores) (dto : LoginUserDTO) (freshId : String)
        (now : Millis), f.mongo = true →
      (loginUser f st dto freshId now).2 = st) ∧
    (∀ (f : RegisterFaults) (st : AuthStores) (dto : RegisterUserDTO)
        (uid tid : String) (now : Millis),
      (f.userSave.mongo = true → (registerUser f st dto uid tid now).2 = st) ∧
      (f.tokenSave.mongo = true →
        (registerUser f st dto uid tid now).2.mysqlTokens = st.mysqlTokens)) ∧
    (∀ (f : RefreshFaults) (st : AuthStores) (tok : JwtToken) (freshId : String)
        (now : Millis),
      (f.del.mongo = true → (refreshTokenUC f st tok freshId now).2 = st) ∧
      (f.save.mongo = true →
        ∀ rt ∈ (refreshTokenUC f st tok freshId now).2.mysqlTokens, rt ∈ st.mysqlTokens)) ∧
    (∀ (f : DualFaults) (st : AuthStores) (userId : String), f.mongo = true →
      (logoutUser f st userId).2 = st) ∧
    (∀ (f : DualFaults) (st : AuthStores) (tok : JwtToken), f.mongo = true →
      (logoutUserWithToken f st tok).2 = st) ∧
    (∀ (st : AuthStores) (emailStr raw freshId : String) (now : Millis) (em : Email)
        (user : AuthUser),
      Email.create emailStr = .ok em →
      findAuthUserByEmail st.mongoUsers em = some user →
      (requestPasswordReset ⟨⟨false, false⟩, ⟨true, false⟩⟩ st emailStr raw freshId now).1
        = .error (.database "save failed") ∧
      (requestPasswordReset ⟨⟨false, false⟩, ⟨true, false⟩⟩ st emailStr raw freshId now).2.mysqlResets
        = resetsSave (PasswordResetToken.create (hashPasswordResetToken raw) user.id
            (getPasswordResetExpiryDate now) freshId now)
            (resetsDeleteAllByUserId user.id st.mysqlResets)) := by
  refine ⟨?_, ?_, ?_, ?_, ?_, ?_, ?_, ?_, ?_⟩
  · intro f st dto freshId now hm
    unfold createUser
    repeat' split
    all_goals solve
      | rfl
      | simp_all
      | (dsimp only
         repeat' split
         all_goals solve | rfl | simp_all)
  · intro f st id dto now hm
    unfold updateUser
    repeat' split
    all_goals solve
      | rfl
      | simp_all
      | (dsimp only
         repeat' split
         all_goals solve | rfl | simp_all)
  · intro f st id hm
    unfold deleteUser
    repeat' split
    all_goals solve
      | rfl
      | simp_all
      | (dsimp only
         repeat' split
         all_goals solve | rfl | simp_all)
  · intro f st dto freshId now hm
    unfold loginUser
    repeat' split
    all_goals solve
      | rfl
      | simp_all
      | (dsimp only
         repeat' split
         all_goals solve | rfl | simp_all)
  · intro f st dto uid tid now
    constructor
    · intro hm
      unfold registerUser
      repeat' split
      all_goals solve
      | rfl
      | simp_all
      | (dsimp only
         repeat' split
         all_goals solve | rfl | simp_all)
    · intro hm
      unfold registerUser
      repeat' split
      all_goals solve
      | rfl
      | simp_all
      | (dsimp only
         repeat' split
         all_goals solve | rfl | simp_all)
  · intro f st tok freshId now
    constructor
    · intro hm
      unfold refreshTokenUC
      repeat' split
      all_goals solve
      | rfl
      | simp_all
      | (dsimp only
         repeat' split
         all_goals solve | rfl | simp_all)
    · intro hm rt hrt
      unfold refreshTokenUC at hrt
      repeat' split at hrt
      all_goals solve
        | exact hrt
        | exact (List.mem_filter.mp hrt).1
        | simp_all
  · intro f st userId hm
    unfold logoutUser
    repeat' split
    all_goals solve
      | rfl
      | simp_all
      | (dsimp only
         repeat' split
         all_goals solve | rfl | simp_all)
  · intro f st tok hm
    unfold logoutUserWithToken
    repeat' split
    all_goals solve
      | rfl
      | simp_all
      | (dsimp only
         repeat' split
         all_goals solve | rfl | simp_all)
  · intro st emailStr raw freshId now em user hem hfind
    constructor <;> simp [requestPasswordReset, hem, hfind]

/-- After deleting every record with the old token string and appending a
record with a different token string, lookup by the old string finds
nothing. -/
theorem tokensFindByToken_delete_save_ne (tok : JwtToken) (rt : RefreshToken)
    (ts : List RefreshToken) (hne : rt.token ≠ tok) :
    tokensFindByToken tok (tokensSave rt (tokensDeleteByToken tok ts)) = none := by
  unfold tokensFindByToken tokensSave tokensDeleteByToken
  rw [List.find?_eq_none]
  intro x hx
  rcases List.mem_append.mp hx with hx | hx
  · have hx2 := (List.mem_filter.mp hx).2
    simpa using hx2
  · simp only [List.mem_singleton] at hx
    subst hx
    simpa using hne

/-- C3 counterexample: a refresh performed at the same instant the old
token was signed (same payload, same expiry second) produces an
identical newly signed token string; the refresh succeeds, yet the old
refresh token string still resolves through the stored-token lookup in
both stores afterwards, because the new record wraps the same string. -/
theorem refresh_same_instant_old_token_resolvable :
    ((refreshTokenUC noRefreshFaults authStFix jtFix "t2" 1000).1
      = .ok (JwtUtil.generateAccessToken payloadFix 1000, jtFix)) ∧
    (JwtUtil.generateRefreshToken payloadFix 1000 = jtFix) ∧
    (tokensFindByToken jtFix (refreshTokenUC noRefreshFaults authStFix jtFix "t2" 1000).2.mongoTokens
      = some ⟨"t2", jtFix, "u1", 604801000, 1000⟩) ∧
    (tokensFindByToken jtFix (refreshTokenUC noRefreshFaults authStFix jtFix "t2" 1000).2.mysqlTokens
      = some ⟨"t2", jtFix, "u1", 604801000, 1000⟩) := by
  refine ⟨?_, ?_, ?_, ?_⟩ <;> decide

/-- C3 (amended): every successful refresh deletes the old refresh-token
record from both stores and saves a brand-new record wrapping the newly
signed token string to both stores, and returns the new access and
refresh tokens; whenever the newly signed string differs from the old
one (which holds whenever the signing instants differ), the old string
no longer resolves through the stored-token lookup in either store. -/
theorem refresh_rotation :
    ∀ (st : AuthStores) (tok : JwtToken) (freshId : String) (now : Millis) (a r : JwtToken),
      (refreshTokenUC noRefreshFaults st tok freshId now).1 = .ok (a, r) →
      (r = JwtUtil.generateRefreshToken r.payload now ∧
        a = JwtUtil.generateAccessToken r.payload now) ∧
      ((refreshTokenUC noRefreshFaults st tok freshId now).2.mongoTokens
        = tokensSave ⟨freshId, r, r.payload.userId, JwtUtil.getRefreshTokenExpiryDate now, now⟩
            (tokensDeleteByToken tok st.mongoTokens) ∧
       (refreshTokenUC noRefreshFaults st tok freshId now).2.mysqlTokens
        = tokensSave ⟨freshId, r, r.payload.userId, JwtUtil.getRefreshTokenExpiryDate now, now⟩
            (tokensDeleteByToken tok st.mysqlTokens)) ∧
      (r ≠ tok →
        tokensFindByToken tok
            (refreshTokenUC noRefreshFaults st tok freshId now).2.mongoTokens = none ∧
        tokensFindByToken tok
            (refreshTokenUC noRefreshFaults st tok freshId now).2.mysqlTokens = none) := by
  intro st tok freshId now a r h
  rcases hv : JwtUtil.verifyRefreshToken tok now with e | payload
  · simp [refreshTokenUC, hv] at h
  rcases hfind : tokensFindByToken tok st.mongoTokens with _ | storedToken
  · simp [refreshTokenUC, hv, hfind] at h
  cases hexp : storedToken.isExpired now
  case true => simp [refreshTokenUC, hv, hfind, hexp, noRefreshFaults, noFaults] at h
  rcases huid : UserId.fromString payload.userId with e | uid
  · simp [refreshTokenUC, hv, hfind, hexp, huid] at h
  cases hb : storedToken.belongsToUser uid
  case false => simp [refreshTokenUC, hv, hfind, hexp, huid, hb] at h
  rcases hfu : findAuthUserById st.mongoUsers uid with _ | user
  · simp [refreshTokenUC, hv, hfind, hexp, huid, hb, hfu] at h
  have hred :
      refreshTokenUC noRefreshFaults st tok freshId now
        = (.ok (JwtUtil.generateAccessToken (payloadOf user) now,
                JwtUtil.generateRefreshToken (payloadOf user) now),
           { st with
              mongoTokens := tokensSave
                (RefreshToken.create (JwtUtil.generateRefreshToken (payloadOf user) now)
                  user.id (JwtUtil.getRefreshTokenExpiryDate now) freshId now)
                (tokensDeleteByToken tok st.mongoTokens),
              mysqlTokens := tokensSave
                (RefreshToken.create (JwtUtil.generateRefreshToken (payloadOf user) now)
                  user.id (JwtUtil.getRefreshTokenExpiryDate now) freshId now)
                (tokensDeleteByToken tok st.mysqlTokens) }) := by
    simp [refreshTokenUC, hv, hfind, hexp, huid, hb, hfu, noRefreshFaults, noFaults]
  rw [hred] at h
  simp only [Except.ok.injEq, Prod.mk.injEq] at h
  obtain ⟨ha, hr⟩ := h
  subst ha
  subst hr
  rw [hred]
  refine ⟨⟨rfl, rfl⟩, ⟨rfl, rfl⟩, fun hne => ?_⟩
  constructor
  · exact tokensFindByToken_delete_save_ne tok _ st.mongoTokens hne
  · exact tokensFindByToken_delete_save_ne tok _ st.mysqlTokens hne

/-- Witness for the C3 theorem: a refresh one second after issuance, where
the rotated token differs and the old string stops resolving. -/
theorem refresh_rotation_witness :
    tokensFindByToken jtFix
        (refreshTokenUC noRefreshFaults authStFix jtFix "t2" 2000).2.mongoTokens = none ∧
    tokensFindByToken jtFix
        (refreshTokenUC noRefreshFaults authStFix jtFix "t2" 2000).2.mysqlTokens = none :=
  (refresh_rotation authStFix jtFix "t2" 2000
      (JwtUtil.generateAccessToken payloadFix 2000)
      (JwtUtil.generateRefreshToken payloadFix 2000)
      (by decide)).2.2 (by decide)

/-- A successful verification returns exactly the signed claims. -/
theorem verifyRefreshToken_ok_payload {t : JwtToken} {now : Millis} {p : JwtPayload}
    (h : JwtUtil.verifyRefreshToken t now = .ok p) : p = t.payload := by
  unfold JwtUtil.verifyRefreshToken at h
  split at h
  · cases h
  · split at h
    · cases h
    · cases h
      rfl

/-- C4: with no injected store faults, the refresh use case fails with an
Unauthorized error exactly when JWT verification fails, or no stored
record matches the token string, or the stored record is past expiry, or
the record belongs to a different user than the signed claims; in the
past-expiry case the record is deleted from both stores first; and it
fails with NotFound exactly when every one of those checks passes but
the user no longer exists.  (The hypothesis that the signed user id is a
nonempty string holds for every token the system signs, since ids are
generated uuids.) -/
theorem refresh_error_taxonomy :
    ∀ (st : AuthStores) (tok : JwtToken) (freshId : String) (now : Millis),
      jsTrim tok.payload.userId ≠ "" →
      ((∃ m, (refreshTokenUC noRefreshFaults st tok freshId now).1
          = .error (.unauthorized m)) ↔
        ((∃ e, JwtUtil.verifyRefreshToken tok now = .error e) ∨
          tokensFindByToken tok st.mongoTokens = none ∨
          (∃ rt, tokensFindByToken tok st.mongoTokens = some rt ∧ rt.isExpired now = true) ∨
          (∃ rt, tokensFindByToken tok st.mongoTokens = some rt ∧ rt.isExpired now = false ∧
            rt.belongsToUser tok.payload.userId = false))) ∧
      (∀ rt, tokensFindByToken tok st.mongoTokens = some rt → rt.isExpired now = true →
        (∃ p, JwtUtil.verifyRefreshToken tok now = .ok p) →
        (refreshTokenUC noRefreshFaults st tok freshId now).1
            = .error (.unauthorized "Refresh token has expired") ∧
        (refreshTokenUC noRefreshFaults st tok freshId now).2.mongoTokens
            = tokensDeleteByToken tok st.mongoTokens ∧
        (refreshTokenUC noRefreshFaults st tok freshId now).2.mysqlTokens
            = tokensDeleteByToken tok st.mysqlTokens) ∧
      ((∃ m, (refreshTokenUC noRefreshFaults st tok freshId now).1
          = .error (.notFound m)) ↔
        ((∃ p, JwtUtil.verifyRefreshToken tok now = .ok p) ∧
          (∃ rt, tokensFindByToken tok st.mongoTokens = some rt ∧ rt.isExpired now = false ∧
            rt.belongsToUser tok.payload.userId = true) ∧
          findAuthUserById st.mongoUsers tok.payload.userId = none)) := by
  intro st tok freshId now hne
  rcases hv : JwtUtil.verifyRefreshToken tok now with e | payload
  · refine ⟨?_, ?_, ?_⟩ <;> simp [refreshTokenUC, hv]
  · have hp := verifyRefreshToken_ok_payload hv
    subst hp
    rcases hfind : tokensFindByToken tok st.mongoTokens with _ | rt
    · refine ⟨?_, ?_, ?_⟩ <;> simp [refreshTokenUC, hv, hfind]
    · cases hexp : rt.isExpired now
      case false =>
        cases hb : rt.belongsToUser tok.payload.userId
        case false =>
          refine ⟨?_, ?_, ?_⟩ <;>
            simp [refreshTokenUC, hv, hfind, hexp, UserId.fromString, hne, hb]
        case true =>
          rcases hfu : findAuthUserById st.mongoUsers tok.payload.userId with _ | user
          · refine ⟨?_, ?_, ?_⟩ <;>
              simp [refreshTokenUC, hv, hfind, hexp, UserId.fromString, hne, hb, hfu,
                noRefreshFaults, noFaults]
          · refine ⟨?_, ?_, ?_⟩ <;>
              simp [refreshTokenUC, hv, hfind, hexp, UserId.fromString, hne, hb, hfu,
                noRefreshFaults, noFaults]
      case true =>
        refine ⟨?_, ?_, ?_⟩ <;>
          simp [refreshTokenUC, hv, hfind, hexp, noRefreshFaults, noFaults]

/-- Witness for the C4 theorem at concrete inputs: an expired stored
record is deleted from both stores and rejected as Unauthorized. -/
theorem refresh_error_taxonomy_witness :
    ((refreshTokenUC noRefreshFaults
        ⟨[userFix], [userFix], [⟨"t1", jtFix, "u1", 900, 1000⟩],
          [⟨"t1", jtFix, "u1", 900, 1000⟩], [], []⟩ jtFix "t2" 1000).1
      = .error (.unauthorized "Refresh token has expired")) ∧
    ((refreshTokenUC noRefreshFaults
        ⟨[userFix], [userFix], [⟨"t1", jtFix, "u1", 900, 1000⟩],
          [⟨"t1", jtFix, "u1", 900, 1000⟩], [], []⟩ jtFix "t2" 1000).2.mongoTokens
      = tokensDeleteByToken jtFix [⟨"t1", jtFix, "u1", 900, 1000⟩]) ∧
    ((refreshTokenUC noRefreshFaults
        ⟨[userFix], [userFix], [⟨"t1", jtFix, "u1", 900, 1000⟩],
          [⟨"t1", jtFix, "u1", 900, 1000⟩], [], []⟩ jtFix "t2" 1000).2.mysqlTokens
      = tokensDeleteByToken jtFix [⟨"t1", jtFix, "u1", 900, 1000⟩]) :=
  (refresh_error_taxonomy
      ⟨[userFix], [userFix], [⟨"t1", jtFix, "u1", 900, 1000⟩],
        [⟨"t1", jtFix, "u1", 900, 1000⟩], [], []⟩ jtFix "t2" 1000
      (by decide)).2.1 ⟨"t1", jtFix, "u1", 900, 1000⟩ (by decide) (by decide)
    ⟨payloadFix, by decide⟩

/-- Filtering a delete-all-then-save result by the owning user leaves
exactly the one new record. -/
theorem filter_user_after_request (uid : String) (prt : PasswordResetToken)
    (ts : List PasswordResetToken) (hprt : prt.userId = uid) :
    ((resetsDeleteAllByUserId uid ts) ++ [prt]).filter (fun t => t.userId == uid) = [prt] := by
  unfold resetsDeleteAllByUserId
  rw [List.filter_append]
  have h1 : (ts.filter fun t => !(t.userId == uid)).filter (fun t => t.userId == uid) = [] := by
    rw [List.filter_eq_nil_iff]
    intro x hx
    have hx2 := (List.mem_filter.mp hx).2
    simpa using hx2
  rw [h1]
  simp [hprt]

/-- C7: a password-reset request for an existing user first deletes all
of that user records from both stores and then writes the single new
one, so afterwards exactly one live reset-token record for the user
exists in each store; after a second request the second token is the
only live one, and the first raw token no longer resolves by hash in
either store (provided raw tokens distinct and no unrelated record of
another user carries the first hash). -/
theorem request_reset_single_liveness :
    (∀ (st : AuthStores) (emailStr raw freshId : String) (now : Millis) (em : Email)
        (user : AuthUser),
      Email.create emailStr = .ok em →
      findAuthUserByEmail st.mongoUsers em = some user →
      ((requestPasswordReset noRequestResetFaults st emailStr raw freshId now).2.mongoResets.filter
          (fun t => t.userId == user.id)
        = [PasswordResetToken.create (hashPasswordResetToken raw) user.id
            (getPasswordResetExpiryDate now) freshId now] ∧
       (requestPasswordReset noRequestResetFaults st emailStr raw freshId now).2.mysqlResets.filter
          (fun t => t.userId == user.id)
        = [PasswordResetToken.create (hashPasswordResetToken raw) user.id
            (getPasswordResetExpiryDate now) freshId now])) ∧
    (∀ (st : AuthStores) (emailStr raw1 raw2 i1 i2 : String) (now1 now2 : Millis)
        (em : Email) (user : AuthUser),
      Email.create emailStr = .ok em →
      findAuthUserByEmail st.mongoUsers em = some user →
      raw1 ≠ raw2 →
      (∀ t ∈ st.mongoResets, t.tokenHash = hashPasswordResetToken raw1 → t.userId = user.id) →
      (∀ t ∈ st.mysqlResets, t.tokenHash = hashPasswordResetToken raw1 → t.userId = user.id) →
      (resetsFindByHash (hashPasswordResetToken raw1)
          (requestPasswordReset noRequestResetFaults
            (requestPasswordReset noRequestResetFaults st emailStr raw1 i1 now1).2
            emailStr raw2 i2 now2).2.mongoResets = none ∧
       resetsFindByHash (hashPasswordResetToken raw1)
          (requestPasswordReset noRequestResetFaults
            (requestPasswordReset noRequestResetFaults st emailStr raw1 i1 now1).2
            emailStr raw2 i2 now2).2.mysqlResets = none ∧
       (requestPasswordReset noRequestResetFaults
            (requestPasswordReset noRequestResetFaults st emailStr raw1 i1 now1).2
            emailStr raw2 i2 now2).2.mongoResets.filter (fun t => t.userId == user.id)
        = [PasswordResetToken.create (hashPasswordResetToken raw2) user.id
            (getPasswordResetExpiryDate now2) i2 now2] ∧
       (requestPasswordReset noRequestResetFaults
            (requestPasswordReset noRequestResetFaults st emailStr raw1 i1 now1).2
            emailStr raw2 i2 now2).2.mysqlResets.filter (fun t => t.userId == user.id)
        = [PasswordResetToken.create (hashPasswordResetToken raw2) user.id
            (getPasswordResetExpiryDate now2) i2 now2])) := by
  have hred : ∀ (st : AuthStores) (emailStr raw freshId : String) (now : Millis) (em : Email)
      (user : AuthUser),
      Email.create emailStr = .ok em →
      findAuthUserByEmail st.mongoUsers em = some user →
      (requestPasswordReset noRequestResetFaults st emailStr raw freshId now).2
        = { st with
            mongoResets := (resetsDeleteAllByUserId user.id st.mongoResets)
              ++ [PasswordResetToken.create (hashPasswordResetToken raw) user.id
                  (getPasswordResetExpiryDate now) freshId now],
            mysqlResets := (resetsDeleteAllByUserId user.id st.mysqlResets)
              ++ [PasswordResetToken.create (hashPasswordResetToken raw) user.id
                  (getPasswordResetExpiryDate now) freshId now] } := by
    intro st emailStr raw freshId now em user hem hfind
    simp [requestPasswordReset, hem, hfind, noRequestResetFaults, noFaults, resetsSave]
  constructor
  · intro st emailStr raw freshId now em user hem hfind
    rw [hred st emailStr raw freshId now em user hem hfind]
    exact ⟨filter_user_after_request user.id _ _ rfl,
      filter_user_after_request user.id _ _ rfl⟩
  · intro st emailStr raw1 raw2 i1 i2 now1 now2 em user hem hfind hraw hmono hmysql
    have h1 := hred st emailStr raw1 i1 now1 em user hem hfind
    have hfind2 : findAuthUserByEmail
        ((requestPasswordReset noRequestResetFaults st emailStr raw1 i1 now1).2).mongoUsers em
        = some user := by
      rw [h1]
      exact hfind
    have h2 := hred _ emailStr raw2 i2 now2 em user hem hfind2
    rw [h2, h1]
    have hnone : ∀ (ts : List PasswordResetToken),
        (∀ t ∈ ts, t.tokenHash = hashPasswordResetToken raw1 → t.userId = user.id) →
        resetsFindByHash (hashPasswordResetToken raw1)
          ((resetsDeleteAllByUserId user.id
              ((resetsDeleteAllByUserId user.id ts)
                ++ [PasswordResetToken.create (hashPasswordResetToken raw1) user.id
                    (getPasswordResetExpiryDate now1) i1 now1]))
            ++ [PasswordResetToken.create (hashPasswordResetToken raw2) user.id
                (getPasswordResetExpiryDate now2) i2 now2]) = none := by
      intro ts hts
      unfold resetsFindByHash resetsDeleteAllByUserId
      rw [List.find?_eq_none]
      intro x hx
      rcases List.mem_append.mp hx with hx | hx
      · have hx1 := List.mem_filter.mp hx
        rcases List.mem_append.mp hx1.1 with hy | hy
        · have hy1 := List.mem_filter.mp hy
          intro hbeq
          have hhash : x.tokenHash = hashPasswordResetToken raw1 := by simpa using hbeq
          have huid := hts x hy1.1 hhash
          have := hy1.2
          simp [huid] at this
        · simp only [List.mem_singleton] at hy
          have := hx1.2
          rw [hy] at this
          simp [PasswordResetToken.create] at this
      · simp only [List.mem_singleton] at hx
        subst hx
        simp [PasswordResetToken.create, hashPasswordResetToken]
        intro hcon
        exact absurd (congrArg (fun h => h) hcon) (by
          simp [Sha256Hash.sha256.injEq]
          intro h
          exact hraw h.symm)
    refine ⟨hnone st.mongoResets hmono, hnone st.mysqlResets hmysql,
      filter_user_after_request user.id _ _ rfl,
      filter_user_after_request user.id _ _ rfl⟩

/-- Witness for the C1 theorem: each conjunct applied at concrete inputs
with the document-store write failing. -/
theorem dual_write_ordering_witness :
    ((createUser ⟨true, false⟩ ⟨[], [plainUserFix]⟩ ⟨"Bo", "bo@ex.com", none⟩ "u2" 9).2.mysqlUsers
      = [plainUserFix]) ∧
    ((updateUser ⟨true, false⟩ ⟨[plainUserFix], [plainUserFix]⟩ "u1"
        ⟨some "Cy", none, none⟩ 9).2.mysqlUsers = [plainUserFix]) ∧
    ((deleteUser ⟨true, false⟩ ⟨[plainUserFix], [plainUserFix]⟩ "u1").2.mysqlUsers
      = [plainUserFix]) ∧
    ((loginUser ⟨true, false⟩ authStFix ⟨"al@ex.com", "Str0ng!pass"⟩ "t2" 2000).2 = authStFix) ∧
    ((registerUser ⟨⟨true, false⟩, ⟨false, false⟩⟩ authStFix
        ⟨"Bo", "bo@ex.com", "Str0ng!pass", none, none⟩ "u2" "t2" 9).2 = authStFix) ∧
    ((registerUser ⟨⟨false, false⟩, ⟨true, false⟩⟩ authStFix
        ⟨"Bo", "bo@ex.com", "Str0ng!pass", none, none⟩ "u2" "t2" 9).2.mysqlTokens
      = authStFix.mysqlTokens) ∧
    ((refreshTokenUC ⟨⟨true, false⟩, ⟨false, false⟩⟩ authStFix jtFix "t2" 2000).2 = authStFix) ∧
    (rtOtherFix ∈ authStFix2.mysqlTokens) ∧
    ((logoutUser ⟨true, false⟩ authStFix "u1").2 = authStFix) ∧
    ((logoutUserWithToken ⟨true, false⟩ authStFix jtFix).2 = authStFix) ∧
    ((requestPasswordReset ⟨⟨false, false⟩, ⟨true, false⟩⟩ authStFix "al@ex.com" "raw1" "p1" 500).1
      = .error (.database "save failed")) ∧
    ((requestPasswordReset ⟨⟨false, false⟩, ⟨true, false⟩⟩ authStFix
        "al@ex.com" "raw1" "p1" 500).2.mysqlResets
      = resetsSave (PasswordResetToken.create (hashPasswordResetToken "raw1") userFix.id
          (getPasswordResetExpiryDate 500) "p1" 500)
          (resetsDeleteAllByUserId userFix.id authStFix.mysqlResets)) :=
  ⟨dual_write_ordering.1 ⟨true, false⟩ ⟨[], [plainUserFix]⟩ ⟨"Bo", "bo@ex.com", none⟩ "u2" 9 rfl,
    dual_write_ordering.2.1 ⟨true, false⟩ ⟨[plainUserFix], [plainUserFix]⟩ "u1"
      ⟨some "Cy", none, none⟩ 9 rfl,
    dual_write_ordering.2.2.1 ⟨true, false⟩ ⟨[plainUserFix], [plainUserFix]⟩ "u1" rfl,
    dual_write_ordering.2.2.2.1 ⟨true, false⟩ authStFix ⟨"al@ex.com", "Str0ng!pass"⟩ "t2" 2000 rfl,
    (dual_write_ordering.2.2.2.2.1 ⟨⟨true, false⟩, ⟨false, false⟩⟩ authStFix
      ⟨"Bo", "bo@ex.com", "Str0ng!pass", none, none⟩ "u2" "t2" 9).1 rfl,
    (dual_write_ordering.2.2.2.2.1 ⟨⟨false, false⟩, ⟨true, false⟩⟩ authStFix
      ⟨"Bo", "bo@ex.com", "Str0ng!pass", none, none⟩ "u2" "t2" 9).2 rfl,
    (dual_write_ordering.2.2.2.2.2.1 ⟨⟨true, false⟩, ⟨false, false⟩⟩ authStFix jtFix "t2" 2000).1 rfl,
    (dual_write_ordering.2.2.2.2.2.1 ⟨⟨false, false⟩, ⟨true, false⟩⟩ authStFix2 jtFix "t2" 2000).2
      rfl rtOtherFix (by decide),
    dual_write_ordering.2.2.2.2.2.2.1 ⟨true, false⟩ authStFix "u1" rfl,
    dual_write_ordering.2.2.2.2.2.2.2.1 ⟨true, false⟩ authStFix jtFix rfl,
    (dual_write_ordering.2.2.2.2.2.2.2.2 authStFix "al@ex.com" "raw1" "p1" 500 ⟨"al@ex.com"⟩
      userFix (by decide) (by decide)).1,
    (dual_write_ordering.2.2.2.2.2.2.2.2 authStFix "al@ex.com" "raw1" "p1" 500 ⟨"al@ex.com"⟩
      userFix (by decide) (by decide)).2⟩

/-- Witness for the C7 theorem: two successive reset requests on a
concrete store. -/
theorem request_reset_single_liveness_witness :
    (resetsFindByHash (hashPasswordResetToken "raw1")
      (requestPasswordReset noRequestResetFaults
        (requestPasswordReset noRequestResetFaults authStFix "al@ex.com" "raw1" "p1" 500).2
        "al@ex.com" "raw2" "p2" 600).2.mongoResets = none) ∧
    (resetsFindByHash (hashPasswordResetToken "raw1")
      (requestPasswordReset noRequestResetFaults
        (requestPasswordReset noRequestResetFaults authStFix "al@ex.com" "raw1" "p1" 500).2
        "al@ex.com" "raw2" "p2" 600).2.mysqlResets = none) ∧
    ((requestPasswordReset noRequestResetFaults
        (requestPasswordReset noRequestResetFaults authStFix "al@ex.com" "raw1" "p1" 500).2
        "al@ex.com" "raw2" "p2" 600).2.mongoResets.filter (fun t => t.userId == userFix.id)
      = [PasswordResetToken.create (hashPasswordResetToken "raw2") userFix.id
          (getPasswordResetExpiryDate 600) "p2" 600]) ∧
    ((requestPasswordReset noRequestResetFaults
        (requestPasswordReset noRequestResetFaults authStFix "al@ex.com" "raw1" "p1" 500).2
        "al@ex.com" "raw2" "p2" 600).2.mysqlResets.filter (fun t => t.userId == userFix.id)
      = [PasswordResetToken.create (hashPasswordResetToken "raw2") userFix.id
          (getPasswordResetExpiryDate 600) "p2" 600]) :=
  request_reset_single_liveness.2 authStFix "al@ex.com" "raw1" "raw2" "p1" "p2" 500 600
    ⟨"al@ex.com"⟩ userFix (by decide) (by decide) (by decide) (by simp [authStFix])
    (by simp [authStFix])

/-- C9: the expiry checks of RefreshToken and PasswordResetToken are the
strict comparison `now > expiresAt`, so a record evaluated at exactly
its expiry instant is still treated as live: the refresh flow (given a
cryptographically still-valid token) and the reset-password flow both
accept the boundary instant. -/
theorem expiry_boundary_strict :
    (∀ (t : RefreshToken) (now : Millis), t.expiresAt = now → t.isExpired now = false) ∧
    (∀ (t : PasswordResetToken) (now : Millis), t.expiresAt = now → t.isExpired now = false) ∧
    (∀ (st : AuthStores) (tok : JwtToken) (freshId : String) (now : Millis)
        (rt : RefreshToken) (user : AuthUser),
      JwtUtil.verifyRefreshToken tok now = .ok tok.payload →
      tokensFindByToken tok st.mongoTokens = some rt →
      rt.expiresAt = now →
      jsTrim tok.payload.userId ≠ "" →
      rt.belongsToUser tok.payload.userId = true →
      findAuthUserById st.mongoUsers tok.payload.userId = some user →
      (refreshTokenUC noRefreshFaults st tok freshId now).1
        = .ok (JwtUtil.generateAccessToken (payloadOf user) now,
               JwtUtil.generateRefreshToken (payloadOf user) now)) ∧
    (∀ (st : AuthStores) (raw newPw : String) (now : Millis)
        (prt : PasswordResetToken) (user : AuthUser) (pw : Password),
      resetsFindByHash (hashPasswordResetToken raw) st.mongoResets = some prt →
      prt.expiresAt = now →
      findAuthUserById st.mongoUsers prt.userId = some user →
      Password.create newPw = .ok pw →
      (∃ v ∈ st.mysqlUsers, v.id = user.id) →
      (∀ v ∈ st.mysqlUsers, v.email = user.email → v.id = user.id) →
      (∃ t ∈ st.mysqlResets, t.id = prt.id) →
      (resetPassword noResetFaults st raw newPw now).1 = .ok ()) := by
  refine ⟨?_, ?_, ?_, ?_⟩
  · intro t now h
    simp [RefreshToken.isExpired, h]
  · intro t now h
    simp [PasswordResetToken.isExpired, h]
  · intro st tok freshId now rt user hv hfind hexpAt hne hb hfu
    have hexp : rt.isExpired now = false := by
      simp [RefreshToken.isExpired, hexpAt]
    simp [refreshTokenUC, hv, hfind, hexp, UserId.fromString, hne, hb, hfu,
      noRefreshFaults, noFaults]
  · intro st raw newPw now prt user pw hfindh hexpAt hfindu hpw hmysqlU hconfU hmysqlT
    have hexp : prt.isExpired now = false := by
      simp [PasswordResetToken.isExpired, hexpAt]
    have hmem : user ∈ st.mongoUsers := by
      unfold findAuthUserById at hfindu
      exact List.mem_of_find?_eq_some hfindu
    have hany1 : (st.mongoUsers.any fun v => v.id == (user.updatePassword pw now).id) = true :=
      List.any_eq_true.mpr ⟨user, hmem, by simp [AuthUser.updatePassword]⟩
    have hup1 : mongoAuthUserUpdate (user.updatePassword pw now) st.mongoUsers
        = .ok (st.mongoUsers.map fun v =>
            if v.id == (user.updatePassword pw now).id then user.updatePassword pw now else v) := by
      unfold mongoAuthUserUpdate
      rw [if_pos hany1]
    have hany2 : (st.mysqlUsers.any fun v => v.id == (user.updatePassword pw now).id) = true := by
      rcases hmysqlU with ⟨v, hv, hid⟩
      exact List.any_eq_true.mpr ⟨v, hv, by simp [AuthUser.updatePassword, hid]⟩
    have hconf : (st.mysqlUsers.any fun v =>
        !(v.id == (user.updatePassword pw now).id) && v.email == (user.updatePassword pw now).email)
        = false := by
      rw [Bool.eq_false_iff]
      intro hc
      rcases List.any_eq_true.mp hc with ⟨v, hv, hcond⟩
      simp only [AuthUser.updatePassword, Bool.and_eq_true, Bool.not_eq_true', beq_eq_false_iff_ne,
        beq_iff_eq] at hcond
      exact absurd (hconfU v hv hcond.2) hcond.1
    have hup2 : prismaUserUpdate (user.updatePassword pw now) st.mysqlUsers
        = .ok (st.mysqlUsers.map fun v =>
            if v.id == (user.updatePassword pw now).id then user.updatePassword pw now else v) := by
      simp [prismaUserUpdate, hany2, hconf]
    have hany3 : (st.mysqlResets.any fun t => t.id == prt.id) = true := by
      rcases hmysqlT with ⟨t, ht, hid⟩
      exact List.any_eq_true.mpr ⟨t, ht, by simp [hid]⟩
    simp [resetPassword, hfindh, hexp, hfindu, hpw, hup1, hup2, removeToken, hany3,
      noResetFaults, noFaults]

/-- Witness for the C9 theorem at concrete boundary instants. -/
theorem expiry_boundary_strict_witness :
    (RefreshToken.isExpired ⟨"t1", jtFix, "u1", 2000, 1000⟩ 2000 = false) ∧
    (PasswordResetToken.isExpired ⟨"p1", .sha256 "raw1", "u1", 500, 100⟩ 500 = false) ∧
    ((refreshTokenUC noRefreshFaults
        ⟨[userFix], [userFix], [⟨"t1", jtFix, "u1", 2000, 1000⟩],
          [⟨"t1", jtFix, "u1", 2000, 1000⟩], [], []⟩ jtFix "t2" 2000).1
      = .ok (JwtUtil.generateAccessToken (payloadOf userFix) 2000,
             JwtUtil.generateRefreshToken (payloadOf userFix) 2000)) ∧
    ((resetPassword noResetFaults
        ⟨[userFix], [userFix], [], [], [⟨"p1", .sha256 "raw1", "u1", 500, 100⟩],
          [⟨"p1", .sha256 "raw1", "u1", 500, 100⟩]⟩ "raw1" "N3w!passw" 500).1 = .ok ()) :=
  ⟨expiry_boundary_strict.1 ⟨"t1", jtFix, "u1", 2000, 1000⟩ 2000 rfl,
    expiry_boundary_strict.2.1 ⟨"p1", .sha256 "raw1", "u1", 500, 100⟩ 500 rfl,
    expiry_boundary_strict.2.2.1
      ⟨[userFix], [userFix], [⟨"t1", jtFix, "u1", 2000, 1000⟩],
        [⟨"t1", jtFix, "u1", 2000, 1000⟩], [], []⟩ jtFix "t2" 2000
      ⟨"t1", jtFix, "u1", 2000, 1000⟩ userFix (by decide) (by decide) rfl (by decide)
      (by decide) (by decide),
    expiry_boundary_strict.2.2.2
      ⟨[userFix], [userFix], [], [], [⟨"p1", .sha256 "raw1", "u1", 500, 100⟩],
        [⟨"p1", .sha256 "raw1", "u1", 500, 100⟩]⟩ "raw1" "N3w!passw" 500
      ⟨"p1", .sha256 "raw1", "u1", 500, 100⟩ userFix ⟨.bcrypt "N3w!passw"⟩
      (by decide) rfl (by decide) (by decide)
      ⟨userFix, by decide, rfl⟩ (by decide) ⟨⟨"p1", .sha256 "raw1", "u1", 500, 100⟩, by decide, rfl⟩⟩

end Hexacore
